import Mathlib

/-!
Shallow embedding of the AirCon LAN bridge (HiSense air-conditioner controller)
and proofs about its specification claims.

Python sources embedded here:
- `aircon/config.py` (session-key derivation),
- `aircon/control_value_utils.py` (bit-packed control register codec),
- `aircon/query_handlers.py` (HTTP handlers: key exchange, command fetch,
  property update, command enqueue; zero padding),
- `aircon/aircon.py` (device state: sequence numbers, property mirror,
  command queue, the AC fast-heat cascade),
- `aircon/store.py` (data store),
- `aircon/notifier.py` (availability / retry state machine),
- `hisense.py` (the flat single-device variant of `queue_command`).

Bytes are modelled as `List Nat` (byte values); Python strings that reach the
crypto layer are ASCII, so `encode utf-8` is the per-character code point.
-/

namespace AirCon

/-- Byte strings (Python `bytes`) as lists of byte values. -/
abbrev Bytes := List Nat

/-- Python `str.encode utf-8` for the ASCII strings used by the protocol:
one byte per character, the character's code point. -/
def encodeUtf8 (s : String) : Bytes := s.data.map Char.toNat

/-! ## Session-key derivation (`aircon/config.py`, class `Encryption`) -/

/-- AES block size in bytes (`AES.block_size` in pycryptodome). -/
def block_size : Nat := 16

/-- From `Encryption._build_key`:
`hmac_digest(lanip_key, hmac_digest(lanip_key, msg) + msg)`.
The HMAC-SHA256 digest itself is library code (`hmac.digest(key, msg, sha256)`),
so it is a parameter `hmac_digest` of the embedding. -/
def build_key (hmac_digest : Bytes → Bytes → Bytes) (lanip_key msg : Bytes) : Bytes :=
  hmac_digest lanip_key (hmac_digest lanip_key msg ++ msg)

/-- Derived per-direction session keys (`dataclass Encryption`).
The live AES cipher object is not part of the state we model; it is fully
determined by `crypto_key` and `iv_seed`. -/
structure Encryption where
  sign_key : Bytes
  crypto_key : Bytes
  iv_seed : Bytes
deriving Repr, DecidableEq

/-- From `Encryption.__init__(lanip_key, msg)`:
sign key from `msg + b'0'`, crypto key from `msg + b'1'`,
IV seed from `msg + b'2'` truncated to the AES block size. -/
def Encryption.init (hmac_digest : Bytes → Bytes → Bytes) (lanip_key msg : Bytes) :
    Encryption where
  sign_key := build_key hmac_digest lanip_key (msg ++ encodeUtf8 "0")
  crypto_key := build_key hmac_digest lanip_key (msg ++ encodeUtf8 "1")
  iv_seed := (build_key hmac_digest lanip_key (msg ++ encodeUtf8 "2")).take block_size

/-- The persisted LAN configuration (`dataclass LanConfig` in `config.py`). -/
structure LanConfig where
  lanip_key : String
  lanip_key_id : Int
  random_1 : String
  time_1 : Int
  random_2 : String
  time_2 : Int
deriving Repr, DecidableEq

/-- From `Config._update_encryption`: builds the app-direction and
dev-direction `Encryption` contexts.  `str(time)` is `toString` on the
stored integer. -/
def update_encryption (hmac_digest : Bytes → Bytes → Bytes) (lc : LanConfig) :
    Encryption × Encryption :=
  let lanip_key := encodeUtf8 lc.lanip_key
  let random_1 := encodeUtf8 lc.random_1
  let random_2 := encodeUtf8 lc.random_2
  let time_1 := encodeUtf8 (toString lc.time_1)
  let time_2 := encodeUtf8 (toString lc.time_2)
  (Encryption.init hmac_digest lanip_key (random_1 ++ random_2 ++ time_1 ++ time_2),
   Encryption.init hmac_digest lanip_key (random_2 ++ random_1 ++ time_2 ++ time_1))

/-! ## Zero padding (`query_handlers.py`, `pad` / `unpad`) -/

/-- From `pad(data)`: `data.ljust(ceil(len(data)/block_size)*block_size, b'\x00')`.
For natural `n`, `ceil(n/16) = (n + 15) / 16` in integer arithmetic, and
`ljust` appends the missing number of zero bytes. -/
def pad (data : Bytes) : Bytes :=
  let new_size := ((data.length + block_size - 1) / block_size) * block_size
  data ++ List.replicate (new_size - data.length) 0

/-- From `unpad(data)`: `data.rstrip(b'\x00')` removes all trailing zero bytes. -/
def unpad (data : Bytes) : Bytes :=
  (data.reverse.dropWhile (· == 0)).reverse

/-! ## Control-value codec (`aircon/control_value_utils.py`)

The register is a 32-bit value; the encoders return enum members whose
numeric value is what we model.  Python's `control & ~mask` on the
(non-negative, below `2^32`) register equals `control &&& (mask ^^^ (2^32-1))`
since every mask fits in 32 bits, so the bitwise complement is taken at
width 32. -/

/-- The 32-bit bitwise complement, standing in for Python's `~mask` as applied to
registers below `2^32` (`0xFFFFFFFF = 2^32 - 1`). -/
def not32 (m : Nat) : Nat := m ^^^ (2 ^ 32 - 1)

/-- From `get_fan_speed_value`: `(control >> 1) & 15`. -/
def get_fan_speed_value (control : Nat) : Nat := (control >>> 1) &&& 15

/-- From `set_fan_speed_value`: `(control & ~31) | ((value << 1) | 1)`. -/
def set_fan_speed_value (control value : Nat) : Nat :=
  (control &&& not32 31) ||| ((value <<< 1) ||| 1)

/-- From `get_power_value`: `(control >> 6) & 1`. -/
def get_power_value (control : Nat) : Nat := (control >>> 6) &&& 1

/-- From `set_power_value`: `(control & ~(3 << 5)) | (((value << 1) | 1) << 5)`. -/
def set_power_value (control value : Nat) : Nat :=
  (control &&& not32 (3 <<< 5)) ||| (((value <<< 1) ||| 1) <<< 5)

/-- From `get_work_mode_value`: `(control >> 9) & 7`. -/
def get_work_mode_value (control : Nat) : Nat := (control >>> 9) &&& 7

/-- From `set_work_mode_value`: `(control & ~(15 << 8)) | (((value << 1) | 1) << 8)`. -/
def set_work_mode_value (control value : Nat) : Nat :=
  (control &&& not32 (15 <<< 8)) ||| (((value <<< 1) ||| 1) <<< 8)

/-- From `get_heat_cold_value`: `(control >> 13) & 1`. -/
def get_heat_cold_value (control : Nat) : Nat := (control >>> 13) &&& 1

/-- From `set_heat_cold_value`: `(control & ~(3 << 12)) | (((value << 1) | 1) << 12)`. -/
def set_heat_cold_value (control value : Nat) : Nat :=
  (control &&& not32 (3 <<< 12)) ||| (((value <<< 1) ||| 1) <<< 12)

/-- From `get_eco_value`: `(control >> 15) & 1`. -/
def get_eco_value (control : Nat) : Nat := (control >>> 15) &&& 1

/-- From `set_eco_value`: `(control & ~(3 << 14)) | (((value << 1) | 1) << 14)`. -/
def set_eco_value (control value : Nat) : Nat :=
  (control &&& not32 (3 <<< 14)) ||| (((value <<< 1) ||| 1) <<< 14)

/-- From `get_temp_value`: `(control >> 17) & 63`. -/
def get_temp_value (control : Nat) : Nat := (control >>> 17) &&& 63

/-- From `set_temp_value`: `(control & ~(127 << 16)) | (((value << 1) | 1) << 16)`. -/
def set_temp_value (control value : Nat) : Nat :=
  (control &&& not32 (127 <<< 16)) ||| (((value <<< 1) ||| 1) <<< 16)

/-- From `get_fan_power_value`: `(control >> 25) & 1`. -/
def get_fan_power_value (control : Nat) : Nat := (control >>> 25) &&& 1

/-- From `set_fan_power_value`: `(control & ~(3 << 24)) | (((value << 1) | 1) << 24)`. -/
def set_fan_power_value (control value : Nat) : Nat :=
  (control &&& not32 (3 <<< 24)) ||| (((value <<< 1) ||| 1) <<< 24)

/-- From `get_fan_lr_value`: `(control >> 27) & 1`. -/
def get_fan_lr_value (control : Nat) : Nat := (control >>> 27) &&& 1

/-- From `set_fan_lr_value`: `(control & ~(3 << 26)) | (((value << 1) | 1) << 26)`. -/
def set_fan_lr_value (control value : Nat) : Nat :=
  (control &&& not32 (3 <<< 26)) ||| (((value <<< 1) ||| 1) <<< 26)

/-- From `get_fan_mute_value`: `(control >> 29) & 1`. -/
def get_fan_mute_value (control : Nat) : Nat := (control >>> 29) &&& 1

/-- From `set_fan_mute_value`: `(control & ~(3 << 28)) | (((value << 1) | 1) << 28)`. -/
def set_fan_mute_value (control value : Nat) : Nat :=
  (control &&& not32 (3 <<< 28)) ||| (((value <<< 1) ||| 1) <<< 28)

/-- From `get_temptype_value`: `(control >> 31) & 1`. -/
def get_temptype_value (control : Nat) : Nat := (control >>> 31) &&& 1

/-- From `set_temptype_value`: `(control & ~(3 << 30)) | (((value << 1) | 1) << 30)`. -/
def set_temptype_value (control value : Nat) : Nat :=
  (control &&& not32 (3 <<< 30)) ||| (((value <<< 1) ||| 1) <<< 30)

/-- Generic form of every setter in the codec: the field occupies bits
`[shift, shift + w + 1)` with the change-flag bit at `shift` and `w` value
bits above it. -/
def encF (shift w r v : Nat) : Nat :=
  (r &&& not32 ((2 ^ (w + 1) - 1) <<< shift)) ||| (((v <<< 1) ||| 1) <<< shift)

/-- Generic form of every decoder in the codec: the `w` value bits starting
at `shift + 1`. -/
def decF (shift w r : Nat) : Nat := (r >>> (shift + 1)) &&& (2 ^ w - 1)

/-- A sub-field descriptor of the control-value codec: the source setter and
decoder, the index of the change-flag bit, and the exclusive bound of the
value range (`2 ^` number of value bits). -/
structure CodecField where
  set : Nat → Nat → Nat
  get : Nat → Nat
  flag_bit : Nat
  bound : Nat

/-- The ten sub-fields of the control-value codec, in source order. -/
def codecFields : List CodecField :=
  [⟨set_fan_speed_value, get_fan_speed_value, 0, 16⟩,
   ⟨set_power_value, get_power_value, 5, 2⟩,
   ⟨set_work_mode_value, get_work_mode_value, 8, 8⟩,
   ⟨set_heat_cold_value, get_heat_cold_value, 12, 2⟩,
   ⟨set_eco_value, get_eco_value, 14, 2⟩,
   ⟨set_temp_value, get_temp_value, 16, 64⟩,
   ⟨set_fan_power_value, get_fan_power_value, 24, 2⟩,
   ⟨set_fan_lr_value, get_fan_lr_value, 26, 2⟩,
   ⟨set_fan_mute_value, get_fan_mute_value, 28, 2⟩,
   ⟨set_temptype_value, get_temptype_value, 30, 2⟩]

/-! ## Property schema (`aircon/properties.py`, class `AcProperties`) -/

/-- The Python enum classes used by `AcProperties`. -/
inductive EnumType
  | dimmer | economy | airFlow | quiet | fanSpeed | power | doubleFrequency
  | sleepMode | temperatureUnit | eightHeat | fastColdHeat | acWorkMode
deriving Repr, DecidableEq

/-- Member tables of each enum class, `(name, value)` in declaration order. -/
def enumMembers : EnumType → List (String × Int)
  | .dimmer => [("ON", 0), ("OFF", 1)]
  | .economy => [("OFF", 0), ("ON", 1)]
  | .airFlow => [("OFF", 0), ("ON", 1)]
  | .quiet => [("OFF", 0), ("ON", 1)]
  | .fanSpeed => [("AUTO", 0), ("LOWER", 5), ("LOW", 6), ("MEDIUM", 7), ("HIGH", 8), ("HIGHER", 9)]
  | .power => [("OFF", 0), ("ON", 1)]
  | .doubleFrequency => [("OFF", 0), ("ON", 1)]
  | .sleepMode => [("STOP", 0), ("ONE", 1), ("TWO", 2), ("THREE", 3), ("FOUR", 4)]
  | .temperatureUnit => [("CELSIUS", 0), ("FAHRENHEIT", 1)]
  | .eightHeat => [("OFF", 0), ("ON", 1)]
  | .fastColdHeat => [("OFF", 0), ("ON", 1)]
  | .acWorkMode => [("FAN", 0), ("HEAT", 1), ("COOL", 2), ("DRY", 3), ("AUTO", 4)]

/-- Whether the class derives `enum.IntEnum` (members compare equal to ints)
rather than plain `enum.Enum`. -/
def EnumType.isIntEnum : EnumType → Bool
  | .fanSpeed | .sleepMode | .acWorkMode => true
  | _ => false

/-- Declared field types (`get_type`): `bool`, `int`, `float`, or an enum class. -/
inductive PropType
  | pyBool | pyInt | pyFloat | pyEnum (e : EnumType)
deriving Repr, DecidableEq

/-- The fields of `AcProperties`, in dataclass declaration order. -/
inductive PropName
  | f_electricity | f_e_arkgrille | f_e_incoiltemp | f_e_incom | f_e_indisplay
  | f_e_ineeprom | f_e_inele | f_e_infanmotor | f_e_inhumidity | f_e_inkeys
  | f_e_inlow | f_e_intemp | f_e_invzero | f_e_outcoiltemp | f_e_outeeprom
  | f_e_outgastemp | f_e_outmachine2 | f_e_outmachine | f_e_outtemp
  | f_e_outtemplow | f_e_push | f_filterclean | f_humidity | f_power_display
  | f_temp_in | f_voltage | t_backlight | t_control_value | t_device_info
  | t_display_power | t_eco | t_fan_leftright | t_fan_mute | t_fan_power
  | t_fan_speed | t_ftkt_start | t_power | t_run_mode | t_setmulti_value
  | t_sleep | t_temp | t_temptype | t_temp_eight | t_temp_heatcold | t_work_mode
deriving Repr, DecidableEq

/-- Wire name of each field (the Python attribute name). -/
def acName : PropName → String
  | .f_electricity => "f_electricity"
  | .f_e_arkgrille => "f_e_arkgrille"
  | .f_e_incoiltemp => "f_e_incoiltemp"
  | .f_e_incom => "f_e_incom"
  | .f_e_indisplay => "f_e_indisplay"
  | .f_e_ineeprom => "f_e_ineeprom"
  | .f_e_inele => "f_e_inele"
  | .f_e_infanmotor => "f_e_infanmotor"
  | .f_e_inhumidity => "f_e_inhumidity"
  | .f_e_inkeys => "f_e_inkeys"
  | .f_e_inlow => "f_e_inlow"
  | .f_e_intemp => "f_e_intemp"
  | .f_e_invzero => "f_e_invzero"
  | .f_e_outcoiltemp => "f_e_outcoiltemp"
  | .f_e_outeeprom => "f_e_outeeprom"
  | .f_e_outgastemp => "f_e_outgastemp"
  | .f_e_outmachine2 => "f_e_outmachine2"
  | .f_e_outmachine => "f_e_outmachine"
  | .f_e_outtemp => "f_e_outtemp"
  | .f_e_outtemplow => "f_e_outtemplow"
  | .f_e_push => "f_e_push"
  | .f_filterclean => "f_filterclean"
  | .f_humidity => "f_humidity"
  | .f_power_display => "f_power_display"
  | .f_temp_in => "f_temp_in"
  | .f_voltage => "f_voltage"
  | .t_backlight => "t_backlight"
  | .t_control_value => "t_control_value"
  | .t_device_info => "t_device_info"
  | .t_display_power => "t_display_power"
  | .t_eco => "t_eco"
  | .t_fan_leftright => "t_fan_leftright"
  | .t_fan_mute => "t_fan_mute"
  | .t_fan_power => "t_fan_power"
  | .t_fan_speed => "t_fan_speed"
  | .t_ftkt_start => "t_ftkt_start"
  | .t_power => "t_power"
  | .t_run_mode => "t_run_mode"
  | .t_setmulti_value => "t_setmulti_value"
  | .t_sleep => "t_sleep"
  | .t_temp => "t_temp"
  | .t_temptype => "t_temptype"
  | .t_temp_eight => "t_temp_eight"
  | .t_temp_heatcold => "t_temp_heatcold"
  | .t_work_mode => "t_work_mode"

/-- All fields in dataclass declaration order. -/
def acPropList : List PropName :=
  [.f_electricity, .f_e_arkgrille, .f_e_incoiltemp, .f_e_incom, .f_e_indisplay,
   .f_e_ineeprom, .f_e_inele, .f_e_infanmotor, .f_e_inhumidity, .f_e_inkeys,
   .f_e_inlow, .f_e_intemp, .f_e_invzero, .f_e_outcoiltemp, .f_e_outeeprom,
   .f_e_outgastemp, .f_e_outmachine2, .f_e_outmachine, .f_e_outtemp,
   .f_e_outtemplow, .f_e_push, .f_filterclean, .f_humidity, .f_power_display,
   .f_temp_in, .f_voltage, .t_backlight, .t_control_value, .t_device_info,
   .t_display_power, .t_eco, .t_fan_leftright, .t_fan_mute, .t_fan_power,
   .t_fan_speed, .t_ftkt_start, .t_power, .t_run_mode, .t_setmulti_value,
   .t_sleep, .t_temp, .t_temptype, .t_temp_eight, .t_temp_heatcold, .t_work_mode]

/-- Attribute lookup by string name (`__dataclass_fields__[attr]`; a miss is a
`KeyError`, modelled as `none`). -/
def acLookup (s : String) : Option PropName :=
  acPropList.find? fun p => acName p == s

/-- Declared type of each field (`AcProperties.get_type`). -/
def acPropType : PropName → PropType
  | .f_electricity => .pyInt
  | .f_humidity => .pyInt
  | .f_temp_in => .pyFloat
  | .f_voltage => .pyInt
  | .t_backlight => .pyEnum .dimmer
  | .t_control_value => .pyInt
  | .t_device_info => .pyBool
  | .t_display_power => .pyBool
  | .t_eco => .pyEnum .economy
  | .t_fan_leftright => .pyEnum .airFlow
  | .t_fan_mute => .pyEnum .quiet
  | .t_fan_power => .pyEnum .airFlow
  | .t_fan_speed => .pyEnum .fanSpeed
  | .t_ftkt_start => .pyInt
  | .t_power => .pyEnum .power
  | .t_run_mode => .pyEnum .doubleFrequency
  | .t_setmulti_value => .pyInt
  | .t_sleep => .pyEnum .sleepMode
  | .t_temp => .pyInt
  | .t_temptype => .pyEnum .temperatureUnit
  | .t_temp_eight => .pyEnum .eightHeat
  | .t_temp_heatcold => .pyEnum .fastColdHeat
  | .t_work_mode => .pyEnum .acWorkMode
  | _ => .pyBool

/-- Read-only flag of each field (`AcProperties.get_read_only`): every `f_*`
sensor field is read-only, every `t_*` target field is writable. -/
def acReadOnly : PropName → Bool
  | .f_electricity | .f_e_arkgrille | .f_e_incoiltemp | .f_e_incom
  | .f_e_indisplay | .f_e_ineeprom | .f_e_inele | .f_e_infanmotor
  | .f_e_inhumidity | .f_e_inkeys | .f_e_inlow | .f_e_intemp | .f_e_invzero
  | .f_e_outcoiltemp | .f_e_outeeprom | .f_e_outgastemp | .f_e_outmachine2
  | .f_e_outmachine | .f_e_outtemp | .f_e_outtemplow | .f_e_push
  | .f_filterclean | .f_humidity | .f_power_display | .f_temp_in
  | .f_voltage => true
  | _ => false

/-- Wire base-type tag of each field (`AcProperties.get_base_type`). -/
def acBaseType : PropName → String
  | .f_electricity => "integer"
  | .f_humidity => "integer"
  | .f_temp_in => "decimal"
  | .f_voltage => "integer"
  | .t_control_value => "integer"
  | .t_fan_speed => "integer"
  | .t_ftkt_start => "integer"
  | .t_setmulti_value => "integer"
  | .t_sleep => "integer"
  | .t_temp => "integer"
  | .t_work_mode => "integer"
  | _ => "boolean"

/-- Runtime property values.  Python `bool` results are stored as the
integers `0`/`1` (`True == 1` and `False == 0` in Python). -/
inductive PropValue
  | vNone
  | vInt (i : Int)
  | vFloat (q : ℚ)
  | vEnum (e : EnumType) (v : Int)
deriving Repr, DecidableEq

/-- Python `==` on the stored values: numbers compare across `int`/`float`,
`IntEnum` members compare equal to equal numbers, plain `Enum` members are
only equal to themselves, and `None` only to `None`. -/
def pyEq : PropValue → PropValue → Bool
  | .vNone, .vNone => true
  | .vInt a, .vInt b => a == b
  | .vInt a, .vFloat q => (a : ℚ) == q
  | .vFloat q, .vInt a => q == (a : ℚ)
  | .vFloat a, .vFloat b => a == b
  | .vEnum e v, .vEnum f w => e == f && v == w
  | .vEnum e v, .vInt b => e.isIntEnum && v == b
  | .vInt b, .vEnum e v => e.isIntEnum && v == b
  | .vEnum e v, .vFloat q => e.isIntEnum && (v : ℚ) == q
  | .vFloat q, .vEnum e v => e.isIntEnum && (v : ℚ) == q
  | _, _ => false

/-- Python truthiness of a stored value (`bool(x)`): `None` is falsy, numbers
are truthy iff non-zero, `IntEnum` members iff their value is non-zero, plain
`Enum` members are always truthy. -/
def truthy : PropValue → Bool
  | .vNone => false
  | .vInt i => i != 0
  | .vFloat q => q != 0
  | .vEnum e v => if e.isIntEnum then v != 0 else true

/-- Default value of each field (the dataclass `default=`).  Python boolean
fields declare the int default `0`. -/
def acDefault : PropName → PropValue
  | .f_electricity => .vInt 100
  | .f_humidity => .vInt 50
  | .f_temp_in => .vFloat 81
  | .f_voltage => .vInt 0
  | .t_backlight => .vEnum .dimmer 1
  | .t_control_value => .vNone
  | .t_device_info => .vInt 0
  | .t_display_power => .vNone
  | .t_eco => .vEnum .economy 0
  | .t_fan_leftright => .vEnum .airFlow 0
  | .t_fan_mute => .vEnum .quiet 0
  | .t_fan_power => .vEnum .airFlow 0
  | .t_fan_speed => .vEnum .fanSpeed 0
  | .t_ftkt_start => .vNone
  | .t_power => .vEnum .power 1
  | .t_run_mode => .vEnum .doubleFrequency 0
  | .t_setmulti_value => .vNone
  | .t_sleep => .vEnum .sleepMode 0
  | .t_temp => .vInt 81
  | .t_temptype => .vEnum .temperatureUnit 1
  | .t_temp_eight => .vEnum .eightHeat 0
  | .t_temp_heatcold => .vEnum .fastColdHeat 0
  | .t_work_mode => .vEnum .acWorkMode 4
  | _ => .vInt 0

/-! ## Python numeric coercions used by the handlers -/

/-- Python `int(s)` on the decimal strings this server receives:
an optional `-` sign followed by decimal digits. -/
def parseInt (s : String) : Option Int := s.toInt?

/-- Python `float(s)` restricted to the plain decimal literals the
home-automation layer sends: `[-] digits [. digits]`. -/
def parseFloat (s : String) : Option ℚ :=
  let core (t : String) : Option ℚ :=
    match t.split (· == '.') with
    | [a] => a.toNat?.map fun n => (n : ℚ)
    | [a, b] =>
      match a.toNat?, b.toNat? with
      | some n, some f => some ((n : ℚ) + (f : ℚ) / (10 : ℚ) ^ b.length)
      | _, _ => none
    | _ => none
  if s.startsWith "-" then (core (s.drop 1)).map Neg.neg else core s

/-- Python `round(x)`: round half to even. -/
def pyRound (q : ℚ) : Int :=
  let f := ⌊q⌋
  let r := q - (f : ℚ)
  if r < 1 / 2 then f
  else if 1 / 2 < r then f + 1
  else if f % 2 = 0 then f else f + 1

/-- Python `int(x)` on a float: truncation toward zero. -/
def pyTrunc (q : ℚ) : Int := if 0 ≤ q then ⌊q⌋ else -⌊-q⌋

/-! ## Inbound property updates
(`query_handlers.py`, `HTTPRequestHandler.property_update_handler`, and
`aircon/aircon.py`, `Device.is_update_valid`) -/

/-- JSON scalar values as they appear in a decrypted datapoint body. -/
inductive JsonVal
  | jStr (s : String)
  | jInt (i : Int)
  | jNum (q : ℚ)
deriving Repr, DecidableEq

/-- Coercion `data_type(update.data.value)` applied by the update handler:
the declared type's constructor called on the JSON value.  Enum classes look
the value up by member value, `int` parses/truncates, `bool` takes Python
truthiness, `float` parses.  A `none` is the `ValueError`/`TypeError` the
handler catches. -/
def inbound_coerce (t : PropType) (j : JsonVal) : Option PropValue :=
  match t, j with
  | .pyEnum e, .jInt v =>
    if (enumMembers e).any (fun m => m.2 == v) then some (.vEnum e v) else none
  | .pyEnum e, .jNum q =>
    if q.den == 1 && (enumMembers e).any (fun m => m.2 == q.num) then
      some (.vEnum e q.num) else none
  | .pyEnum _, .jStr _ => none
  | .pyInt, .jInt v => some (.vInt v)
  | .pyInt, .jNum q => some (.vInt (pyTrunc q))
  | .pyInt, .jStr s => (parseInt s).map .vInt
  | .pyBool, .jInt v => some (.vInt (if v == 0 then 0 else 1))
  | .pyBool, .jNum q => some (.vInt (if q == 0 then 0 else 1))
  | .pyBool, .jStr s => some (.vInt (if s.isEmpty then 0 else 1))
  | .pyFloat, .jInt v => some (.vFloat v)
  | .pyFloat, .jNum q => some (.vFloat q)
  | .pyFloat, .jStr s => (parseFloat s).map .vFloat

/-- From `Device.is_update_valid(cur_update_no)` (aircon.py 134-142), together
with its effect on `_updates_seq_no`: returns the verdict and the
high-water mark after the call. -/
def is_update_valid (updates_seq_no cur_update_no : Nat) : Bool × Nat :=
  if updates_seq_no > cur_update_no ∧ cur_update_no > 0 then
    (false, updates_seq_no)
  else
    (true, cur_update_no)

/-- State touched by the datapoint handler: the updates high-water mark, the
property mirror, and the published change events (`Data` in `store.py`). -/
structure UpdateState where
  updates_seq_no : Nat
  props : PropName → PropValue
  events : List (String × PropValue)

/-- From `Data.update_property` (`store.py` 27-35): rewrite the mirror entry
only if the value changed, then invoke the change listener either way. -/
def data_update_property (st : UpdateState) (name : PropName) (value : PropValue) :
    UpdateState :=
  let old := st.props name
  let props' := if pyEq value old then st.props
    else fun n => if n = name then value else st.props n
  { st with props := props', events := st.events ++ [(acName name, value)] }

/-- From `HTTPRequestHandler.property_update_handler` (query_handlers.py
138-166), after decrypt+verify succeeded: the stale check against the
high-water mark, then the coercion and mirror write with every exception
swallowed.  The HTTP status is 200 on every path modelled here. -/
def property_update_handler (st : UpdateState) (seq_no : Nat)
    (data : Option (String × JsonVal)) : UpdateState :=
  if st.updates_seq_no > seq_no ∧ seq_no > 0 then
    st
  else
    let st1 := { st with updates_seq_no := seq_no }
    match data with
    | none => st1
    | some (name, j) =>
      match acLookup name with
      | none => st1
      | some p =>
        match inbound_coerce (acPropType p) j with
        | none => st1
        | some v => data_update_property st1 p v

/-! ## Outbound command sequence numbers
(`aircon/aircon.py`, `Device.get_command_seq_no`, and `query_handlers.py`,
`HTTPRequestHandler.command_handler`) -/

/-- From `Device.get_command_seq_no` (aircon.py 128-132): return the current
counter and increment it. -/
def get_command_seq_no (commands_seq_no : Nat) : Nat × Nat :=
  (commands_seq_no, commands_seq_no + 1)

/-- Counter value after `n` allocator calls starting from `s`. -/
def seq_state (s : Nat) : Nat → Nat
  | 0 => s
  | n + 1 => (get_command_seq_no (seq_state s n)).2

/-- The sequence numbers returned by `n` consecutive allocator calls
starting from counter `s`. -/
def seq_trace (s : Nat) : Nat → List Nat
  | 0 => []
  | n + 1 => seq_trace s n ++ [(get_command_seq_no (seq_state s n)).1]

/-- Per-device command-fetch state: the `commands_seq_no` counter and the
commands queue (payloads abstracted). -/
structure CmdState (α : Type) where
  commands_seq_no : Nat
  commands_queue : List α
deriving Repr, DecidableEq

/-- One outbound frame `{seq_no, data}`; `data = none` is the empty dict
sent when the queue is empty. -/
structure Frame (α : Type) where
  seq_no : Nat
  data : Option α
deriving Repr, DecidableEq

/-- From `HTTPRequestHandler.command_handler` (query_handlers.py 120-136):
allocate the next sequence number, pop one queue entry (or send `{}`),
reply with the frame. -/
def command_handler {α : Type} (st : CmdState α) : Frame α × CmdState α :=
  match st.commands_queue with
  | [] => (⟨st.commands_seq_no, none⟩, ⟨st.commands_seq_no + 1, []⟩)
  | c :: rest => (⟨st.commands_seq_no, some c⟩, ⟨st.commands_seq_no + 1, rest⟩)

/-! ## Notifier availability tracking (`aircon/notifier.py`,
`Notifier._perform_request`, and `aircon/aircon.py`, the `available` setter) -/

/-- Availability events published to the change listeners by the
`Device.available` setter. -/
inductive AvailEvent
  | online
  | offline
deriving Repr, DecidableEq

/-- Per-device notifier state: `_NotifyConfiguration.failure_cnt` (registered
at `-1`) together with the device's `_available` flag (initialised `False`). -/
structure NotifyState where
  failure_cnt : Int
  available : Bool
deriving Repr, DecidableEq

/-- From the `Device.available` setter (aircon.py 85-88): store the flag and
publish the change to the listeners unconditionally. -/
def set_available (c : NotifyState) (value : Bool) : NotifyState × List AvailEvent :=
  ({ c with available := value }, [if value then .online else .offline])

/-- Constant `Notifier._FAILURE_THRESHOLD`. -/
def failure_threshold : Int := 5

/-- One attempt of `Notifier._perform_request` (notifier.py 128-172), reduced
to its effect on the failure counter and availability: on an exception the
counter is incremented and, exactly when it reaches the threshold, the device
is marked offline; on success a non-zero counter is reset and the device
marked online. -/
def perform_request_step (c : NotifyState) (success : Bool) :
    NotifyState × List AvailEvent :=
  if success then
    if c.failure_cnt ≠ 0 then
      set_available { c with failure_cnt := 0 } true
    else
      (c, [])
  else
    let c1 : NotifyState := { c with failure_cnt := c.failure_cnt + 1 }
    if c1.failure_cnt = failure_threshold then
      set_available c1 false
    else
      (c1, [])

/-- Run a sequence of attempt outcomes, accumulating the published
availability events. -/
def run_attempts (c : NotifyState) : List Bool → NotifyState × List AvailEvent
  | [] => (c, [])
  | b :: bs =>
    let (c1, e1) := perform_request_step c b
    let (c2, e2) := run_attempts c1 bs
    (c2, e1 ++ e2)

/-! ## Key exchange (`query_handlers.py`,
`HTTPRequestHandler.key_exchange_handler`) -/

/-- The global `_config`: the persisted LAN configuration plus the two live
encryption contexts. -/
structure ConfigState where
  lan_config : LanConfig
  app : Encryption
  dev : Encryption
deriving Repr, DecidableEq

/-- A key-exchange request body.  `sec` is an optional scalar; the handler
tests it with `key.get('sec')`, i.e. Python truthiness. -/
structure KeyExchange where
  ver : Int
  proto : Int
  sec : Option Int
  key_id : Int
  random_1 : String
  time_1 : Int
deriving Repr, DecidableEq

/-- Truthiness of the optional `sec` field: absent or zero is falsy. -/
def secTruthy : Option Int → Bool
  | none => false
  | some v => v != 0

/-- Alphabet `string.ascii_letters + string.digits`, the population
`random_2` is drawn from. -/
def ascii_letters_digits : List Char :=
  "abcdefghijklmnopqrstuvwxyzABCDEFGHIJKLMNOPQRSTUVWXYZ0123456789".data

/-- Model of `random.choices(population, k=k)`: `k` independent draws from the
population; the random source is the oracle `rand`, reduced modulo the
population size so that every draw is a member. -/
def random_choices (population : List Char) (k : Nat) (rand : Nat → Nat) :
    List Char :=
  (List.range k).map fun i => population.getD (rand i % population.length) 'A'

/-- From `HTTPRequestHandler.key_exchange_handler` (query_handlers.py 89-118).
Returns the new `_config` state, the HTTP status, and the response body
`(random_2, time_2)` when one is sent.  The random source `rand` and the
monotonic clock sample `monotonic_ns` are oracles for `random.choices` and
`time.monotonic_ns()`.  Note the source stores `random_1`/`time_1` before
the `key_id` check, and rebuilds the encryption contexts (`_config.update()`)
only on the success path. -/
def key_exchange_handler (hmac_digest : Bytes → Bytes → Bytes) (st : ConfigState)
    (key : KeyExchange) (rand : Nat → Nat) (monotonic_ns : Nat) :
    ConfigState × Nat × Option (String × Nat) :=
  if key.ver ≠ 1 ∨ key.proto ≠ 1 ∨ secTruthy key.sec then
    (st, 400, none)
  else
    let lc1 := { st.lan_config with random_1 := key.random_1, time_1 := key.time_1 }
    if key.key_id ≠ st.lan_config.lanip_key_id then
      ({ st with lan_config := lc1 }, 404, none)
    else
      let r2 := String.mk (random_choices ascii_letters_digits 16 rand)
      let t2 := monotonic_ns % 2 ^ 40
      let lc2 := { lc1 with random_2 := r2, time_2 := (t2 : Int) }
      let enc := update_encryption hmac_digest lc2
      (⟨lc2, enc.1, enc.2⟩, 200, some (r2, t2))

/-! ## Command enqueueing, flat variant (`hisense.py`, `queue_command`, and
`query_handlers.py`, `HTTPRequestHandler.queue_command_handler`) -/

/-- The `property` object of an outbound set command (hisense.py 412-421). -/
structure PropertyCmd where
  base_type : String
  name : String
  value : PropValue
  id : String
deriving Repr, DecidableEq

/-- A `_data.commands_queue` entry `(command, property_updater)`; the updater
closure is modelled by the `(name, typed_value)` pair it captures. -/
structure QueueEntry where
  cmd : PropertyCmd
  updater : Option (PropName × PropValue)
deriving Repr, DecidableEq

/-- The flat `_data` store as touched by `queue_command`: the commands queue
plus the oracle feeding `random.choices` of command ids. -/
structure HState where
  queue : List QueueEntry
  ids : Nat → String
  idx : Nat

/-- Coercion of a command value string (hisense.py 404-411): for an enum
type, subscripting by member name and taking `.value`; for `int`, rounding a
dotted string through `float`, else parsing; `bool`/`float` constructors
otherwise.  Returns `(data_value, typed_value)`; `none` is the raised
`KeyError`/`ValueError`. -/
def command_coerce (t : PropType) (value : String) :
    Option (PropValue × PropValue) :=
  match t with
  | .pyEnum e =>
    ((enumMembers e).lookup value).map fun v => (.vInt v, .vEnum e v)
  | .pyInt =>
    if value.contains '.' then
      (parseFloat value).map fun q => (.vInt (pyRound q), .vInt (pyRound q))
    else
      (parseInt value).map fun n => (.vInt n, .vInt n)
  | .pyBool =>
    some (.vInt (if value.isEmpty then 0 else 1), .vInt (if value.isEmpty then 0 else 1))
  | .pyFloat =>
    (parseFloat value).map fun q => (.vFloat q, .vFloat q)

/-- Append one command built by `queue_command` (hisense.py 412-426). -/
def h_enqueue (st : HState) (p : PropName) (dv tv : PropValue) : HState :=
  { st with
    queue := st.queue ++ [⟨⟨acBaseType p, acName p, dv, st.ids st.idx⟩, some (p, tv)⟩]
    idx := st.idx + 1 }

/-- One non-cascading pass of `queue_command`: read-only check, coercion,
single enqueue. -/
def queue_command_step (st : HState) (name value : String) : Option HState :=
  match acLookup name with
  | none => none
  | some p =>
    if acReadOnly p then none
    else
      (command_coerce (acPropType p) value).map fun dv => h_enqueue st p dv.1 dv.2

/-- From `queue_command` (hisense.py 399-436).  The fast-heat cascade
re-enters `queue_command` for four fixed writable properties; none of those
is `t_temp_heatcold`, so each recursive call takes the plain single-enqueue
path and the recursion is unrolled to four `queue_command_step` calls. -/
def queue_command_h (st : HState) (name value : String) : Option HState :=
  match acLookup name with
  | none => none
  | some p =>
    if acReadOnly p then none
    else
      match command_coerce (acPropType p) value with
      | none => none
      | some (dv, tv) =>
        let st1 := h_enqueue st p dv tv
        if p = .t_temp_heatcold ∧ tv = .vEnum .fastColdHeat 1 then
          (queue_command_step st1 "t_fan_speed" "AUTO").bind fun s2 =>
          (queue_command_step s2 "t_fan_mute" "OFF").bind fun s3 =>
          (queue_command_step s3 "t_sleep" "STOP").bind fun s4 =>
          queue_command_step s4 "t_temp_eight" "OFF"
        else
          some st1

/-- From `HTTPRequestHandler.queue_command_handler` (query_handlers.py
177-187): run `queue_command` on the query parameters; any exception
(including a missing parameter) yields 400 with no body; success yields 200
and the body mapping the literal key `queued commands` to the queue size. -/
def queue_command_handler (st : HState) (property value : Option String) :
    HState × Nat × List (String × Nat) :=
  match property, value with
  | some name, some v =>
    match queue_command_h st name v with
    | none => (st, 400, [])
    | some st' => (st', 200, [("queued commands", st'.queue.length)])
  | _, _ => (st, 400, [])

/-! ## Device model (`aircon/aircon.py`, classes `Device` and `AcDevice`) -/

/-- The `Command` dataclass (aircon.py 22-27): priority, the `time.time_ns()`
timestamp breaking FIFO ties, the payload, and the updater closure (modelled
by its captured `(name, typed_value)`). -/
structure Command where
  priority : Nat
  timestamp : Nat
  payload : PropertyCmd
  updater : Option (PropName × PropValue)
deriving Repr, DecidableEq

/-- Mutable device state for the command/property engine: identity
(`mac_address`), property mirror, command queue in insertion order, the
monotonic clock feeding timestamps, and the random-id oracle. -/
structure DevState where
  mac : String
  props : PropName → PropValue
  queue : List Command
  clock : Nat
  ids : Nat → String
  idx : Nat

/-- Overwrite one mirror entry (`setattr(self._properties, name, value)`). -/
def DevState.setProp (st : DevState) (name : PropName) (v : PropValue) : DevState :=
  { st with props := fun n => if n = name then v else st.props n }

/-- The dynamic `value` argument of `Device.queue_command`: a string (user
request), an int (the control register), or an enum member (internal
fall-through). -/
inductive PyVal
  | s (v : String)
  | i (v : Int)
  | e (et : EnumType) (v : Int)
deriving Repr, DecidableEq

/-- Coercion in `Device.queue_command` (aircon.py 147-157).  Enum types
subscript by member *name* (`data_type[value]`), so any non-string raises;
`int` rounds dotted strings through `float`; otherwise the type constructor
is applied.  `none` is the raised exception. -/
def device_coerce (t : PropType) (value : PyVal) : Option PropValue :=
  match t, value with
  | .pyEnum e, .s name => ((enumMembers e).lookup name).map (.vEnum e)
  | .pyEnum _, _ => none
  | .pyInt, .s str =>
    if str.contains '.' then (parseFloat str).map fun q => .vInt (pyRound q)
    else (parseInt str).map .vInt
  | .pyInt, .i n => some (.vInt n)
  | .pyInt, .e et v => if et.isIntEnum then some (.vInt v) else none
  | .pyBool, .s str => some (.vInt (if str.isEmpty then 0 else 1))
  | .pyBool, .i n => some (.vInt (if n == 0 then 0 else 1))
  | .pyBool, .e et v => some (.vInt (if et.isIntEnum && v == 0 then 0 else 1))
  | .pyFloat, .s str => (parseFloat str).map .vFloat
  | .pyFloat, .i n => some (.vFloat n)
  | .pyFloat, .e et v => if et.isIntEnum then some (.vFloat v) else none

/-- Enqueue tail of `Device.queue_command` (aircon.py 164-175): enum members
are lowered to their numeric value for the wire, the typed value is kept for
the updater closure, and the command is put with priority 10 at the current
clock tick. -/
def dev_enqueue (st : DevState) (name : PropName) (dv : PropValue) : DevState :=
  let wire := match dv with | .vEnum _ v => .vInt v | x => x
  let cmd : Command :=
    ⟨10, st.clock, ⟨acBaseType name, acName name, wire, st.ids st.idx⟩, some (name, dv)⟩
  { st with queue := st.queue ++ [cmd], clock := st.clock + 1, idx := st.idx + 1 }

/-- Modelled from the spec: `clear_up_change_flags` lives in the
`control_value` module, which is absent from the source tree (only its
callers in `aircon.py` are present).  Spec §4.3/§8.6: it zeros every
change-flag bit (bits 0, 5, 8, 12, 14, 16, 24, 26, 28, 30) without touching
value bits. -/
def clear_up_change_flags (control : Nat) : Nat :=
  control &&& not32 ((1 <<< 0) ||| (1 <<< 5) ||| (1 <<< 8) ||| (1 <<< 12) |||
    (1 <<< 14) ||| (1 <<< 16) ||| (1 <<< 24) ||| (1 <<< 26) ||| (1 <<< 28) ||| (1 <<< 30))

/-- The stored control register as a natural number.  The register is always
a non-negative int when present; a non-int would raise in Python, and the
theorems only evaluate this under an int. -/
def regOf : PropValue → Nat
  | .vInt i => i.toNat
  | _ => 0

/-- Numeric content of a setter argument (`value.value` for enum members). -/
def valNat : PropValue → Nat
  | .vEnum _ v => v.toNat
  | .vInt i => i.toNat
  | _ => 0

/-- The `self.queue_command('t_control_value', control)` call every control
setter makes: the base pass sees the int value and `name ==
't_control_value'`, so it skips the conversion branch and enqueues directly. -/
def queue_ctl (st : DevState) (n : Nat) : DevState :=
  dev_enqueue st .t_control_value (.vInt (n : Int))

/-- Shared body of the `AcDevice.set_*` control setters (aircon.py 272-424,
each `clear_up_change_flags` then encode-and-enqueue).  The fallback
branches are unreachable non-exceptionally from the conversion path:
with no stored register, `clear_up_change_flags(None)` raises `TypeError`;
with a register that clears to falsy, `self.queue_command(name, setting)`
re-enters the conversion (the register is still stored and truthy) and
recurses into this setter forever (`RecursionError`), or raises `KeyError`
subscripting the enum type with a member.  All of these are `none`.
The `control_value` module's encoders are the `*_value` functions of
`control_value_utils.py` (spec §4.3 gives the identical formulas). -/
def ac_set_via (st : DevState) (enc : Nat → Nat → Nat) (setting : PropValue) :
    Option DevState :=
  match st.props .t_control_value with
  | .vInt c =>
    let control := clear_up_change_flags c.toNat
    if control ≠ 0 then some (queue_ctl st (enc control (valNat setting)))
    else none
  | _ => none

/-- From `AcDevice.set_power` reached from the conversion path. -/
def ac_set_power_cmd (st : DevState) (setting : PropValue) : Option DevState :=
  ac_set_via st set_power_value setting

/-- From `AcDevice.set_fan_speed` reached from the conversion path. -/
def ac_set_fan_speed_cmd (st : DevState) (setting : PropValue) : Option DevState :=
  ac_set_via st set_fan_speed_value setting

/-- From `AcDevice.set_work_mode` (aircon.py 304-312) reached from the conversion
path: no flag clearing; a powered-off register is first switched on. -/
def ac_set_work_mode_cmd (st : DevState) (setting : PropValue) : Option DevState :=
  match st.props .t_control_value with
  | .vInt c =>
    if c ≠ 0 then
      let c0 := c.toNat
      let c1 := if get_power_value c0 == 0 then set_power_value c0 1 else c0
      some (queue_ctl st (set_work_mode_value c1 (valNat setting)))
    else none
  | _ => none

/-- From `AcDevice.set_fast_heat_cold` reached from the conversion path. -/
def ac_set_fast_heat_cold_cmd (st : DevState) (setting : PropValue) : Option DevState :=
  ac_set_via st set_heat_cold_value setting

/-- From `AcDevice.set_eco` reached from the conversion path. -/
def ac_set_eco_cmd (st : DevState) (setting : PropValue) : Option DevState :=
  ac_set_via st set_eco_value setting

/-- From `AcDevice.set_temperature` reached from the conversion path. -/
def ac_set_temperature_cmd (st : DevState) (setting : PropValue) : Option DevState :=
  ac_set_via st set_temp_value setting

/-- From `AcDevice.set_fan_vertical` reached from the conversion path. -/
def ac_set_fan_vertical_cmd (st : DevState) (setting : PropValue) : Option DevState :=
  ac_set_via st set_fan_power_value setting

/-- From `AcDevice.set_fan_horizontal` reached from the conversion path. -/
def ac_set_fan_horizontal_cmd (st : DevState) (setting : PropValue) : Option DevState :=
  ac_set_via st set_fan_lr_value setting

/-- From `AcDevice.set_fan_mute` reached from the conversion path. -/
def ac_set_fan_mute_cmd (st : DevState) (setting : PropValue) : Option DevState :=
  ac_set_via st set_fan_mute_value setting

/-- From `AcDevice.set_temptype` reached from the conversion path. -/
def ac_set_temptype_cmd (st : DevState) (setting : PropValue) : Option DevState :=
  ac_set_via st set_temptype_value setting

/-- From `AcDevice._convert_to_control_value` (aircon.py 464-487): dispatch
to the control setter, or raise `ValueError` (`none`) for every unmapped
property — notably `t_sleep` and `t_temp_eight`. -/
def ac_convert_to_control_value (st : DevState) (name : PropName)
    (dv : PropValue) : Option DevState :=
  match name with
  | .t_power => ac_set_power_cmd st dv
  | .t_fan_speed => ac_set_fan_speed_cmd st dv
  | .t_work_mode => ac_set_work_mode_cmd st dv
  | .t_temp_heatcold => ac_set_fast_heat_cold_cmd st dv
  | .t_eco => ac_set_eco_cmd st dv
  | .t_temp => ac_set_temperature_cmd st dv
  | .t_fan_power => ac_set_fan_vertical_cmd st dv
  | .t_fan_leftright => ac_set_fan_horizontal_cmd st dv
  | .t_fan_mute => ac_set_fan_mute_cmd st dv
  | .t_temptype => ac_set_temptype_cmd st dv
  | _ => none

/-- From `Device.queue_command` (aircon.py 144-175).  The `Bool` is success;
a failure raises before anything was enqueued within this call, so the state
is returned untouched. -/
def device_queue_command (st : DevState) (name : PropName) (value : PyVal) :
    DevState × Bool :=
  if acReadOnly name then (st, false)
  else
    match device_coerce (acPropType name) value with
    | none => (st, false)
    | some dv =>
      if name ≠ .t_control_value ∧ truthy (st.props .t_control_value) then
        match ac_convert_to_control_value st name dv with
        | none => (st, false)
        | some st' => (st', true)
      else
        (dev_enqueue st name dv, true)

/-- From `AcDevice.queue_command` (aircon.py 248-267): the `t_work_mode`
`OFF` rewrite, the implicit power-on for other modes, the base call, and the
fast-heat cascade.  A raised exception stops the sequence but keeps whatever
was already enqueued. -/
def ac_queue_command (st0 : DevState) (name0 : PropName) (value : PyVal) :
    DevState × Bool :=
  let pre : DevState × Bool × PropName :=
    if name0 = .t_work_mode then
      if value = .s "OFF" then (st0, true, .t_power)
      else
        let r := device_queue_command st0 .t_power (.s "ON")
        (r.1, r.2, name0)
    else (st0, true, name0)
  let st1 := pre.1
  let name := pre.2.2
  if !pre.2.1 then (st1, false)
  else
    let r2 := device_queue_command st1 name value
    if !r2.2 then (r2.1, false)
    else
      if name = .t_temp_heatcold ∧ value = .s "ON" then
        let r3 := device_queue_command r2.1 .t_fan_speed (.s "AUTO")
        if !r3.2 then (r3.1, false)
        else
          let r4 := device_queue_command r3.1 .t_fan_mute (.s "OFF")
          if !r4.2 then (r4.1, false)
          else
            let r5 := device_queue_command r4.1 .t_sleep (.s "STOP")
            if !r5.2 then (r5.1, false)
            else device_queue_command r5.1 .t_temp_eight (.s "OFF")
      else (r2.1, true)

/-! ## Property updates with listener fan-out (`aircon/aircon.py`,
`Device.update_property` and the `AcDevice` overrides) -/

/-- Values handed to the change listeners: a stored property value or one of
the literal strings (`"off"`, `"online"`, ...). -/
inductive NotifyVal
  | pv (v : PropValue)
  | str (s : String)
deriving Repr, DecidableEq

/-- A change event `(mac_address, property name, value)` as delivered by
`Device._notify_listeners` to each registered listener. -/
abbrev Event := String × String × NotifyVal

/-- From `AcDevice.get_power` (aircon.py 281-286): the control register is
authoritative when truthy, else the stored `t_power`. -/
def ac_get_power (st : DevState) : PropValue :=
  let control := st.props .t_control_value
  if truthy control then .vEnum .power ((get_power_value (regOf control) : Int))
  else st.props .t_power

/-- From `AcDevice.get_work_mode` (aircon.py 314-319). -/
def ac_get_work_mode (st : DevState) : PropValue :=
  let control := st.props .t_control_value
  if truthy control then .vEnum .acWorkMode ((get_work_mode_value (regOf control) : Int))
  else st.props .t_work_mode

/-- From `Device.update_property` (aircon.py 112-123) as invoked for a property
other than `t_control_value` (the recursive-decode branch cannot fire):
default the notify value, rewrite the mirror entry only if the value
changed, notify the listeners unconditionally. -/
def base_update_no_ctl (st : DevState) (name : PropName) (value : PropValue)
    (notify_value : Option NotifyVal) : DevState × List Event :=
  let nvv := notify_value.getD (.pv value)
  let old := st.props name
  let st1 := if pyEq value old then st else st.setProp name value
  (st1, [(st.mac, acName name, nvv)])

/-- From `AcDevice.update_property` (aircon.py 237-245) as invoked by
`_update_controlled_properties` — the names passed there are never
`t_control_value`, so the base call cannot recurse. -/
def ac_update_sub (st : DevState) (name : PropName) (value : PropValue) :
    DevState × List Event :=
  let notify_value : Option NotifyVal :=
    if name = .t_work_mode ∧ pyEq (ac_get_power st) (.vEnum .power 0) then
      some (.str "off")
    else none
  let r := base_update_no_ctl st name value notify_value
  if name = .t_power then
    let wm : NotifyVal :=
      if pyEq value (.vEnum .power 0) then .str "off"
      else .pv (ac_get_work_mode r.1)
    (r.1, r.2 ++ [(r.1.mac, "t_work_mode", wm)])
  else r

/-- From `AcDevice._update_controlled_properties` (aircon.py 489-518): decode
each sub-field of the freshly stored register and write it to its named
property via `self.update_property` (the `AcDevice` override).  The
`control_value` module's decoders are the `*_value` functions of
`control_value_utils.py` (spec §4.3 gives the identical formulas). -/
def ac_update_controlled (st : DevState) (control : Nat) : DevState × List Event :=
  [(PropName.t_power, PropValue.vEnum .power (get_power_value control)),
   (PropName.t_fan_speed, PropValue.vEnum .fanSpeed (get_fan_speed_value control)),
   (PropName.t_work_mode, PropValue.vEnum .acWorkMode (get_work_mode_value control)),
   (PropName.t_temp_heatcold, PropValue.vEnum .fastColdHeat (get_heat_cold_value control)),
   (PropName.t_eco, PropValue.vEnum .economy (get_eco_value control)),
   (PropName.t_temp, PropValue.vInt (get_temp_value control)),
   (PropName.t_fan_power, PropValue.vEnum .airFlow (get_fan_power_value control)),
   (PropName.t_fan_leftright, PropValue.vEnum .airFlow (get_fan_lr_value control)),
   (PropName.t_fan_mute, PropValue.vEnum .quiet (get_fan_mute_value control)),
   (PropName.t_temptype, PropValue.vEnum .temperatureUnit (get_temptype_value control))
  ].foldl (fun acc p =>
      let r := ac_update_sub acc.1 p.1 p.2
      (r.1, acc.2 ++ r.2))
    (st, [])

/-- Full `Device.update_property` (aircon.py 112-123) with the `AcDevice`
hook: when a changed `t_control_value` is stored, the register's sub-fields
are recursively written before the listeners are notified of the register
itself. -/
def ac_base_update (st : DevState) (name : PropName) (value : PropValue)
    (notify_value : Option NotifyVal) : DevState × List Event :=
  let nvv := notify_value.getD (.pv value)
  let old := st.props name
  if pyEq value old then (st, [(st.mac, acName name, nvv)])
  else
    let st1 := st.setProp name value
    let r :=
      if name = .t_control_value then ac_update_controlled st1 (regOf value)
      else (st1, [])
    (r.1, r.2 ++ [(r.1.mac, acName name, nvv)])

/-- From `AcDevice.update_property` (aircon.py 237-245), the entry point for
every mirror write on an AC device: the off-state work-mode notify override
and the extra `t_work_mode` notification on `t_power` changes. -/
def ac_update_property (st : DevState) (name : PropName) (value : PropValue) :
    DevState × List Event :=
  let notify_value : Option NotifyVal :=
    if name = .t_work_mode ∧ pyEq (ac_get_power st) (.vEnum .power 0) then
      some (.str "off")
    else none
  let r := ac_base_update st name value notify_value
  if name = .t_power then
    let wm : NotifyVal :=
      if pyEq value (.vEnum .power 0) then .str "off"
      else .pv (ac_get_work_mode r.1)
    (r.1, r.2 ++ [(r.1.mac, "t_work_mode", wm)])
  else r

/-! ## Theorems -/

/-! ### C1 — inbound sequence-number discipline -/

/-- C1: the claim states an update is accepted iff `seq_no > high_water` or
`seq_no == 0`; the code accepts `seq_no == high_water` as well (the guard is
`updates_seq_no > cur_update_no`, strict).  At `high_water = 5`,
`seq_no = 5` the update is accepted although the claim calls it stale. -/
theorem C1_counterexample_equal_seq_accepted :
    (is_update_valid 5 5).1 = true ∧ ¬((5 : Nat) > 5 ∨ (5 : Nat) = 0) := by
  constructor
  · rfl
  · decide

/-- C1 (amended): an inbound update with sequence number `s` against
high-water mark `h` is accepted iff `s ≥ h` or `s = 0`; on acceptance the
high-water mark becomes exactly `s`; an update with `0 < s < h` is dropped
by the handler without changing any state, in particular the property
mirror. -/
theorem C1_update_seq_discipline (h s : Nat) :
    ((is_update_valid h s).1 = true ↔ s ≥ h ∨ s = 0) ∧
    ((is_update_valid h s).1 = true → (is_update_valid h s).2 = s) ∧
    (∀ (st : UpdateState) (d : Option (String × JsonVal)),
      st.updates_seq_no = h → 0 < s → s < h →
      property_update_handler st s d = st) := by
  refine ⟨?_, ?_, ?_⟩
  · unfold is_update_valid
    by_cases hc : h > s ∧ s > 0 <;> simp [hc] <;> omega
  · unfold is_update_valid
    by_cases hc : h > s ∧ s > 0 <;> simp [hc]
  · intro st d hst h1 h2
    unfold property_update_handler
    rw [if_pos ⟨by omega, h1⟩]

/-! ### C2 — session-key derivation -/

/-- C2: for every shared secret and `(random_1, random_2, time_1, time_2)`,
the derived keys are `HMAC(K, HMAC(K, M||suffix) || M||suffix)` with
`M = random_1||random_2||str(time_1)||str(time_2)` for the app direction and
`random_2||random_1||str(time_2)||str(time_1)` for the dev direction,
suffix byte `'0'` (48) for the sign key, `'1'` (49) for the crypto key,
`'2'` (50) for the IV seed, the IV seed truncated to the 16-byte block. -/
theorem C2_key_derivation (hmac_digest : Bytes → Bytes → Bytes) (lc : LanConfig) :
    (update_encryption hmac_digest lc).1.sign_key =
      hmac_digest (encodeUtf8 lc.lanip_key)
        (hmac_digest (encodeUtf8 lc.lanip_key)
          ((encodeUtf8 lc.random_1 ++ encodeUtf8 lc.random_2 ++
            encodeUtf8 (toString lc.time_1) ++ encodeUtf8 (toString lc.time_2)) ++ [48]) ++
         ((encodeUtf8 lc.random_1 ++ encodeUtf8 lc.random_2 ++
            encodeUtf8 (toString lc.time_1) ++ encodeUtf8 (toString lc.time_2)) ++ [48])) ∧
    (update_encryption hmac_digest lc).1.crypto_key =
      hmac_digest (encodeUtf8 lc.lanip_key)
        (hmac_digest (encodeUtf8 lc.lanip_key)
          ((encodeUtf8 lc.random_1 ++ encodeUtf8 lc.random_2 ++
            encodeUtf8 (toString lc.time_1) ++ encodeUtf8 (toString lc.time_2)) ++ [49]) ++
         ((encodeUtf8 lc.random_1 ++ encodeUtf8 lc.random_2 ++
            encodeUtf8 (toString lc.time_1) ++ encodeUtf8 (toString lc.time_2)) ++ [49])) ∧
    (update_encryption hmac_digest lc).1.iv_seed =
      (hmac_digest (encodeUtf8 lc.lanip_key)
        (hmac_digest (encodeUtf8 lc.lanip_key)
          ((encodeUtf8 lc.random_1 ++ encodeUtf8 lc.random_2 ++
            encodeUtf8 (toString lc.time_1) ++ encodeUtf8 (toString lc.time_2)) ++ [50]) ++
         ((encodeUtf8 lc.random_1 ++ encodeUtf8 lc.random_2 ++
            encodeUtf8 (toString lc.time_1) ++ encodeUtf8 (toString lc.time_2)) ++ [50]))).take 16 ∧
    (update_encryption hmac_digest lc).2.sign_key =
      hmac_digest (encodeUtf8 lc.lanip_key)
        (hmac_digest (encodeUtf8 lc.lanip_key)
          ((encodeUtf8 lc.random_2 ++ encodeUtf8 lc.random_1 ++
            encodeUtf8 (toString lc.time_2) ++ encodeUtf8 (toString lc.time_1)) ++ [48]) ++
         ((encodeUtf8 lc.random_2 ++ encodeUtf8 lc.random_1 ++
            encodeUtf8 (toString lc.time_2) ++ encodeUtf8 (toString lc.time_1)) ++ [48])) ∧
    (update_encryption hmac_digest lc).2.crypto_key =
      hmac_digest (encodeUtf8 lc.lanip_key)
        (hmac_digest (encodeUtf8 lc.lanip_key)
          ((encodeUtf8 lc.random_2 ++ encodeUtf8 lc.random_1 ++
            encodeUtf8 (toString lc.time_2) ++ encodeUtf8 (toString lc.time_1)) ++ [49]) ++
         ((encodeUtf8 lc.random_2 ++ encodeUtf8 lc.random_1 ++
            encodeUtf8 (toString lc.time_2) ++ encodeUtf8 (toString lc.time_1)) ++ [49])) ∧
    (update_encryption hmac_digest lc).2.iv_seed =
      (hmac_digest (encodeUtf8 lc.lanip_key)
        (hmac_digest (encodeUtf8 lc.lanip_key)
          ((encodeUtf8 lc.random_2 ++ encodeUtf8 lc.random_1 ++
            encodeUtf8 (toString lc.time_2) ++ encodeUtf8 (toString lc.time_1)) ++ [50]) ++
         ((encodeUtf8 lc.random_2 ++ encodeUtf8 lc.random_1 ++
            encodeUtf8 (toString lc.time_2) ++ encodeUtf8 (toString lc.time_1)) ++ [50]))).take 16 := by
  refine ⟨rfl, rfl, rfl, rfl, rfl, rfl⟩

/-! ### C5 — zero padding round trip -/

/-- C5: for every payload that does not end in a zero byte (in particular
every JSON text), `unpad (pad payload) = payload` and the padded length is a
multiple of the 16-byte AES block size.  (The AES-CBC layer itself is
pycryptodome library code; the repository's own contribution to the
encrypt-then-decrypt identity is this padding scheme.) -/
theorem C5_pad_unpad_roundtrip (p : Bytes) (h : p.getLast? ≠ some 0) :
    unpad (pad p) = p ∧ (pad p).length % block_size = 0 := by
  constructor
  · unfold pad unpad
    rw [List.reverse_append, List.reverse_replicate,
      List.dropWhile_append]
    simp only [List.dropWhile_replicate]
    norm_num
    cases hrev : p.reverse with
    | nil =>
      simp at hrev
      simp [hrev]
    | cons a l =>
      have ha : a ≠ 0 := by
        intro rfla
        apply h
        rw [List.getLast?_eq_head?_reverse, hrev, rfla]
        rfl
      rw [List.dropWhile_cons, if_neg (by simpa using ha)]
      rw [← hrev, List.reverse_reverse]
  · unfold pad block_size
    simp only [List.length_append, List.length_replicate]
    omega

/-- C5 witness: the roundtrip at the concrete payload `[1, 2, 3]`. -/
theorem C5_pad_unpad_roundtrip_witness :
    ([1, 2, 3] : Bytes).getLast? ≠ some 0 ∧
    (unpad (pad [1, 2, 3]) = [1, 2, 3] ∧ (pad [1, 2, 3]).length % block_size = 0) :=
  ⟨by decide, C5_pad_unpad_roundtrip [1, 2, 3] (by decide)⟩

/-! ### C6 — outbound command sequence numbers -/

/-- Counter value after `n` allocator calls. -/
theorem seq_state_eq (s n : Nat) : seq_state s n = s + n := by
  induction n with
  | zero => rfl
  | succ n ih => simp [seq_state, get_command_seq_no, ih]; omega

/-- C6: two consecutive outbound frames carry consecutive sequence numbers;
each allocator call returns the previous counter and advances it by one; from
a fresh device the returned numbers are exactly `0, 1, 2, ...`. -/
theorem C6_command_seq_consecutive (α : Type) (st : CmdState α) (s n : Nat) :
    (command_handler ((command_handler st).2)).1.seq_no =
      (command_handler st).1.seq_no + 1 ∧
    get_command_seq_no s = (s, s + 1) ∧
    seq_trace 0 n = List.range n := by
  refine ⟨?_, rfl, ?_⟩
  · rcases st with ⟨c, _ | ⟨x, _ | ⟨y, rest⟩⟩⟩ <;> rfl
  · induction n with
    | zero => rfl
    | succ n ih =>
      rw [seq_trace, ih, seq_state_eq, List.range_succ]
      simp [get_command_seq_no]

/-! ### C8 — notifier failure threshold and availability -/

/-- Closed form of a burst of `n` consecutive failed attempts: the failure
counter advances by `n`, and exactly when the threshold 5 is crossed the
device is marked offline, publishing a single offline event. -/
theorem run_attempts_replicate_false (c : NotifyState) (n : Nat) :
    run_attempts c (List.replicate n false) =
      (⟨c.failure_cnt + n,
        if c.failure_cnt < 5 ∧ 5 ≤ c.failure_cnt + n then false else c.available⟩,
       if c.failure_cnt < 5 ∧ 5 ≤ c.failure_cnt + n then [.offline] else []) := by
  induction n generalizing c with
  | zero =>
    show (c, []) = _
    rw [Nat.cast_zero, add_zero, if_neg (by omega), if_neg (by omega)]
  | succ n ih =>
    rw [List.replicate_succ]
    by_cases hc : c.failure_cnt + 1 = 5
    · have hstep : perform_request_step c false =
          (⟨c.failure_cnt + 1, false⟩, [.offline]) := by
        simp [perform_request_step, failure_threshold, set_available, hc]
      simp only [run_attempts, hstep, ih]
      have h1 : ¬(c.failure_cnt + 1 < 5 ∧ 5 ≤ c.failure_cnt + 1 + (n : Int)) := by
        omega
      have h2 : c.failure_cnt < 5 ∧ 5 ≤ c.failure_cnt + ((n + 1 : Nat) : Int) := by
        push_cast
        omega
      rw [if_neg h1, if_neg h1, if_pos h2, if_pos h2]
      simp only [Prod.mk.injEq, NotifyState.mk.injEq]
      refine ⟨⟨by push_cast; omega, trivial⟩, by simp⟩
    · have hstep : perform_request_step c false =
          (⟨c.failure_cnt + 1, c.available⟩, []) := by
        simp [perform_request_step, failure_threshold, set_available, hc]
      simp only [run_attempts, hstep, ih]
      have hiff : (c.failure_cnt + 1 < 5 ∧ 5 ≤ c.failure_cnt + 1 + (n : Int)) ↔
          (c.failure_cnt < 5 ∧ 5 ≤ c.failure_cnt + ((n + 1 : Nat) : Int)) := by
        push_cast
        omega
      rw [if_congr hiff rfl rfl, if_congr hiff rfl rfl]
      simp only [Prod.mk.injEq, NotifyState.mk.injEq, List.nil_append]
      exact ⟨⟨by push_cast; omega, trivial⟩, trivial⟩

/-- C8: from any state a failure burst can start in (fresh registration has
`failure_cnt = -1`, a preceding success leaves `0`), at most 6 — here: any
`n ≥ 6` — consecutive failed attempts leave the device offline with exactly
one published `offline` availability change, and the next successful attempt
marks it online again (publishing `online`). -/
theorem C8_notifier_offline_once (c : NotifyState) (n : Nat)
    (hc : c.failure_cnt = -1 ∨ c.failure_cnt = 0) (hn : 6 ≤ n) :
    (run_attempts c (List.replicate n false)).1.available = false ∧
    (run_attempts c (List.replicate n false)).2.count .offline = 1 ∧
    (perform_request_step (run_attempts c (List.replicate n false)).1 true).1.available
      = true ∧
    (perform_request_step (run_attempts c (List.replicate n false)).1 true).2
      = [.online] := by
  rw [run_attempts_replicate_false]
  have hcond : c.failure_cnt < 5 ∧ 5 ≤ c.failure_cnt + (n : Int) := by
    rcases hc with h | h <;> [skip; skip] <;> constructor <;> omega
  rw [if_pos hcond, if_pos hcond]
  have hne : ¬(c.failure_cnt + (n : Int) = 0) := by omega
  refine ⟨rfl, by simp, ?_, ?_⟩
  · simp [perform_request_step, set_available, hne]
  · simp [perform_request_step, set_available, hne]

/-- C8 witness: a freshly registered device (`failure_cnt = -1`) after six
failed attempts and one success. -/
theorem C8_notifier_offline_once_witness :
    (run_attempts ⟨-1, false⟩ (List.replicate 6 false)).1.available = false ∧
    (run_attempts ⟨-1, false⟩ (List.replicate 6 false)).2.count .offline = 1 ∧
    (perform_request_step (run_attempts ⟨-1, false⟩
      (List.replicate 6 false)).1 true).1.available = true ∧
    (perform_request_step (run_attempts ⟨-1, false⟩
      (List.replicate 6 false)).1 true).2 = [.online] :=
  C8_notifier_offline_once ⟨-1, false⟩ 6 (Or.inl rfl) (by norm_num)

/-! ### C3 — key exchange -/

/-- Elements drawn by `random_choices` are members of the population. -/
theorem random_choices_mem (pop : List Char) (k : Nat) (rand : Nat → Nat)
    (hpop : pop ≠ []) : ∀ ch ∈ random_choices pop k rand, ch ∈ pop := by
  intro ch hch
  simp only [random_choices, List.mem_map, List.mem_range] at hch
  obtain ⟨i, _, rfl⟩ := hch
  have hlen : 0 < pop.length := List.length_pos.mpr hpop
  have hlt : rand i % pop.length < pop.length := Nat.mod_lt _ hlen
  rw [List.getD_eq_getElem pop 'A' hlt]
  exact List.getElem_mem hlt

/-- C3 counterexample: the claim says a request with a `sec` field present is
rejected with 400, but the handler only tests `key.get('sec')` for
truthiness: a present-but-falsy `sec` (here `0`) passes, and with matching
`key_id` the handler replies 200. -/
theorem C3_counterexample_falsy_sec :
    (⟨1, 1, some 0, 8888, "AAAAAAAAAAAAAAAA", 100⟩ : KeyExchange).sec = some 0 ∧
    (key_exchange_handler (fun _ _ => [])
      ⟨⟨"K", 8888, "r1", 1, "r2", 2⟩, ⟨[], [], []⟩, ⟨[], [], []⟩⟩
      ⟨1, 1, some 0, 8888, "AAAAAAAAAAAAAAAA", 100⟩ (fun _ => 0) 0).2.1 = 200 := by
  exact ⟨rfl, rfl⟩

/-- C3 (amended): the handler replies 400 when `ver ≠ 1`, `proto ≠ 1`, or a
*truthy* `sec` field is present (the code tests `key.get('sec')`, so a falsy
`sec` passes); 404 when `key_id` differs from the stored id, leaving both
session encryption contexts unchanged; otherwise it stores `random_1` and
`time_1`, generates a 16-character `random_2` drawn from the ASCII
letters-and-digits alphabet and a `time_2` below `2^40`, rebuilds both
encryption contexts from the new configuration, and replies 200 with
`(random_2, time_2)`. -/
theorem C3_key_exchange_contract (hmac_digest : Bytes → Bytes → Bytes)
    (st : ConfigState) (key : KeyExchange) (rand : Nat → Nat) (monotonic_ns : Nat) :
    (key.ver ≠ 1 ∨ key.proto ≠ 1 ∨ secTruthy key.sec = true →
      key_exchange_handler hmac_digest st key rand monotonic_ns = (st, 400, none)) ∧
    (key.ver = 1 → key.proto = 1 → secTruthy key.sec = false →
      key.key_id ≠ st.lan_config.lanip_key_id →
      (key_exchange_handler hmac_digest st key rand monotonic_ns).2.1 = 404 ∧
      (key_exchange_handler hmac_digest st key rand monotonic_ns).1.app = st.app ∧
      (key_exchange_handler hmac_digest st key rand monotonic_ns).1.dev = st.dev ∧
      (key_exchange_handler hmac_digest st key rand monotonic_ns).2.2 = none) ∧
    (key.ver = 1 → key.proto = 1 → secTruthy key.sec = false →
      key.key_id = st.lan_config.lanip_key_id →
      (key_exchange_handler hmac_digest st key rand monotonic_ns).2.1 = 200 ∧
      (key_exchange_handler hmac_digest st key rand
        monotonic_ns).1.lan_config.random_1 = key.random_1 ∧
      (key_exchange_handler hmac_digest st key rand
        monotonic_ns).1.lan_config.time_1 = key.time_1 ∧
      (key_exchange_handler hmac_digest st key rand
        monotonic_ns).1.lan_config.random_2.length = 16 ∧
      (∀ ch ∈ (key_exchange_handler hmac_digest st key rand
        monotonic_ns).1.lan_config.random_2.data, ch ∈ ascii_letters_digits) ∧
      (key_exchange_handler hmac_digest st key rand
        monotonic_ns).1.lan_config.time_2 = ((monotonic_ns % 2 ^ 40 : Nat) : Int) ∧
      monotonic_ns % 2 ^ 40 < 2 ^ 40 ∧
      ((key_exchange_handler hmac_digest st key rand monotonic_ns).1.app,
       (key_exchange_handler hmac_digest st key rand monotonic_ns).1.dev) =
        update_encryption hmac_digest
          (key_exchange_handler hmac_digest st key rand monotonic_ns).1.lan_config ∧
      (key_exchange_handler hmac_digest st key rand monotonic_ns).2.2 =
        some ((key_exchange_handler hmac_digest st key rand
          monotonic_ns).1.lan_config.random_2, monotonic_ns % 2 ^ 40)) := by
  refine ⟨?_, ?_, ?_⟩
  · intro h
    unfold key_exchange_handler
    rw [if_pos]
    simpa using h
  · intro h1 h2 h3 h4
    unfold key_exchange_handler
    rw [if_neg (by simp [h1, h2, h3]), if_pos h4]
    exact ⟨rfl, rfl, rfl, rfl⟩
  · intro h1 h2 h3 h4
    unfold key_exchange_handler
    rw [if_neg (by simp [h1, h2, h3]), if_neg (by simpa using h4)]
    refine ⟨rfl, rfl, rfl, ?_, ?_, rfl, Nat.mod_lt _ (by norm_num), rfl, rfl⟩
    · simp [random_choices]
    · exact random_choices_mem ascii_letters_digits 16 rand (by decide)

/-! ### C9 — the `/hisense/command` handler -/

/-- Cascade step on `t_fan_speed`: always succeeds. -/
theorem qstep_fan_speed (s : HState) :
    queue_command_step s "t_fan_speed" "AUTO" =
      some (h_enqueue s .t_fan_speed (.vInt 0) (.vEnum .fanSpeed 0)) := rfl

/-- Cascade step on `t_fan_mute`: always succeeds. -/
theorem qstep_fan_mute (s : HState) :
    queue_command_step s "t_fan_mute" "OFF" =
      some (h_enqueue s .t_fan_mute (.vInt 0) (.vEnum .quiet 0)) := rfl

/-- Cascade step on `t_sleep`: always succeeds. -/
theorem qstep_sleep (s : HState) :
    queue_command_step s "t_sleep" "STOP" =
      some (h_enqueue s .t_sleep (.vInt 0) (.vEnum .sleepMode 0)) := rfl

/-- Cascade step on `t_temp_eight`: always succeeds. -/
theorem qstep_temp_eight (s : HState) :
    queue_command_step s "t_temp_eight" "OFF" =
      some (h_enqueue s .t_temp_eight (.vInt 0) (.vEnum .eightHeat 0)) := rfl

/-- C9 counterexample: the claim names the body key `queued_commands`, but
the handler writes the key `queued commands` (with a space): on a successful
request the body holds exactly that key and no `queued_commands`. -/
theorem C9_counterexample_body_key :
    (queue_command_handler ⟨[], fun _ => "AAAAAAAA", 0⟩
      (some "t_power") (some "OFF")).2.1 = 200 ∧
    ((queue_command_handler ⟨[], fun _ => "AAAAAAAA", 0⟩
      (some "t_power") (some "OFF")).2.2.map Prod.fst) = ["queued commands"] ∧
    "queued_commands" ∉ ((queue_command_handler ⟨[], fun _ => "AAAAAAAA", 0⟩
      (some "t_power") (some "OFF")).2.2.map Prod.fst) := by
  refine ⟨rfl, rfl, by decide⟩

/-- C9 (amended): a `/hisense/command` request for a known writable property
with a coercible value is answered 200 with a body mapping the key
`queued commands` (the code's literal, with a space — not `queued_commands`)
to the number of queued commands; a request for an unknown or read-only
property, or with a value the property's type rejects, is answered 400 and
enqueues nothing. -/
theorem C9_queue_command_contract (st : HState) (name value : String) :
    (∀ p, acLookup name = some p → acReadOnly p = false →
      ∀ dv tv, command_coerce (acPropType p) value = some (dv, tv) →
      ∃ st', queue_command_h st name value = some st' ∧
        queue_command_handler st (some name) (some value) =
          (st', 200, [("queued commands", st'.queue.length)])) ∧
    ((acLookup name = none ∨
      ∃ p, acLookup name = some p ∧
        (acReadOnly p = true ∨ command_coerce (acPropType p) value = none)) →
      queue_command_handler st (some name) (some value) = (st, 400, [])) := by
  constructor
  · intro p hp hro dv tv hdv
    have hq : ∃ st', queue_command_h st name value = some st' := by
      unfold queue_command_h
      rw [hp]
      simp only [hro, Bool.false_eq_true, if_false]
      rw [hdv]
      dsimp only
      by_cases hcas : p = .t_temp_heatcold ∧ tv = .vEnum .fastColdHeat 1
      · rw [if_pos hcas, qstep_fan_speed, Option.some_bind, qstep_fan_mute,
          Option.some_bind, qstep_sleep, Option.some_bind, qstep_temp_eight]
        exact ⟨_, rfl⟩
      · rw [if_neg hcas]
        exact ⟨_, rfl⟩
    obtain ⟨st', hst'⟩ := hq
    exact ⟨st', hst', by simp [queue_command_handler, hst']⟩
  · intro h
    have hnone : queue_command_h st name value = none := by
      unfold queue_command_h
      rcases h with h | ⟨p, hp, hro | hco⟩
      · rw [h]
      · rw [hp]
        simp [hro]
      · rw [hp]
        simp only [hco]
        split <;> rfl
    simp [queue_command_handler, hnone]

/-! ### C7 — the AC fast-heat cascade -/

/-- Evaluation of `Device.queue_command` with no (falsy) stored control register: the
conversion branch is skipped and exactly one command is enqueued. -/
theorem dqc_no_ctl (st : DevState) (h : truthy (st.props .t_control_value) = false)
    (name : PropName) (value : PyVal) (dv : PropValue)
    (hro : acReadOnly name = false)
    (hdv : device_coerce (acPropType name) value = some dv) :
    device_queue_command st name value = (dev_enqueue st name dv, true) := by
  unfold device_queue_command
  simp only [hro, Bool.false_eq_true, if_false]
  rw [hdv]
  dsimp only
  rw [if_neg (by simp [h])]

/-- C7: the claim is wrong when a truthy `t_control_value` is stored: the
cascade then routes each write through `_convert_to_control_value`, which
has no mapping for `t_sleep` and raises `ValueError` after only three
commands (all `t_control_value` registers, none of the five named ones)
were enqueued. -/
theorem C7_counterexample_control_value :
    (ac_queue_command
      ⟨"m", fun n => if n = .t_control_value then .vInt 64 else acDefault n, [], 0,
        fun _ => "id", 0⟩ .t_temp_heatcold (.s "ON")).2 = false ∧
    (ac_queue_command
      ⟨"m", fun n => if n = .t_control_value then .vInt 64 else acDefault n, [], 0,
        fun _ => "id", 0⟩ .t_temp_heatcold (.s "ON")).1.queue.length = 3 ∧
    ((ac_queue_command
      ⟨"m", fun n => if n = .t_control_value then .vInt 64 else acDefault n, [], 0,
        fun _ => "id", 0⟩ .t_temp_heatcold (.s "ON")).1.queue.map
        fun c => c.payload.name) = ["t_control_value", "t_control_value",
          "t_control_value"] := by
  exact ⟨rfl, rfl, rfl⟩

/-- C7 (amended): on an AC device whose `t_control_value` mirror entry is
unset or falsy (the default), processing a single `t_temp_heatcold := ON`
request enqueues exactly five commands, in order: the heatcold set itself,
then `t_fan_speed := AUTO`, `t_fan_mute := OFF`, `t_sleep := STOP`, and
`t_temp_eight := OFF`, all at priority 10 with strictly increasing
timestamps. -/
theorem C7_fast_heat_cascade (st : DevState)
    (h : truthy (st.props .t_control_value) = false) :
    (ac_queue_command st .t_temp_heatcold (.s "ON")).2 = true ∧
    (ac_queue_command st .t_temp_heatcold (.s "ON")).1.queue =
      st.queue ++
      [⟨10, st.clock, ⟨"boolean", "t_temp_heatcold", .vInt 1, st.ids st.idx⟩,
        some (.t_temp_heatcold, .vEnum .fastColdHeat 1)⟩,
       ⟨10, st.clock + 1, ⟨"integer", "t_fan_speed", .vInt 0, st.ids (st.idx + 1)⟩,
        some (.t_fan_speed, .vEnum .fanSpeed 0)⟩,
       ⟨10, st.clock + 2, ⟨"boolean", "t_fan_mute", .vInt 0, st.ids (st.idx + 2)⟩,
        some (.t_fan_mute, .vEnum .quiet 0)⟩,
       ⟨10, st.clock + 3, ⟨"integer", "t_sleep", .vInt 0, st.ids (st.idx + 3)⟩,
        some (.t_sleep, .vEnum .sleepMode 0)⟩,
       ⟨10, st.clock + 4, ⟨"boolean", "t_temp_eight", .vInt 0, st.ids (st.idx + 4)⟩,
        some (.t_temp_eight, .vEnum .eightHeat 0)⟩] := by
  have h1 := dqc_no_ctl st h .t_temp_heatcold (.s "ON") (.vEnum .fastColdHeat 1) rfl rfl
  have h2 := dqc_no_ctl (dev_enqueue st .t_temp_heatcold (.vEnum .fastColdHeat 1)) h
    .t_fan_speed (.s "AUTO") (.vEnum .fanSpeed 0) rfl rfl
  have h3 := dqc_no_ctl (dev_enqueue (dev_enqueue st .t_temp_heatcold
      (.vEnum .fastColdHeat 1)) .t_fan_speed (.vEnum .fanSpeed 0)) h
    .t_fan_mute (.s "OFF") (.vEnum .quiet 0) rfl rfl
  have h4 := dqc_no_ctl (dev_enqueue (dev_enqueue (dev_enqueue st .t_temp_heatcold
      (.vEnum .fastColdHeat 1)) .t_fan_speed (.vEnum .fanSpeed 0)) .t_fan_mute
      (.vEnum .quiet 0)) h
    .t_sleep (.s "STOP") (.vEnum .sleepMode 0) rfl rfl
  have h5 := dqc_no_ctl (dev_enqueue (dev_enqueue (dev_enqueue (dev_enqueue st
      .t_temp_heatcold (.vEnum .fastColdHeat 1)) .t_fan_speed (.vEnum .fanSpeed 0))
      .t_fan_mute (.vEnum .quiet 0)) .t_sleep (.vEnum .sleepMode 0)) h
    .t_temp_eight (.s "OFF") (.vEnum .eightHeat 0) rfl rfl
  have e1 : (PropName.t_temp_heatcold = PropName.t_work_mode) = False := by simp
  unfold ac_queue_command
  simp only [e1, if_false]
  simp [h1, h2, h3, h4, h5]
  simp [dev_enqueue, acBaseType, acName]

/-- C7 witness: the cascade on a freshly constructed AC device (default
mirror, `t_control_value = None`). -/
theorem C7_fast_heat_cascade_witness :
    (ac_queue_command ⟨"m", acDefault, [], 0, fun _ => "id", 0⟩
      .t_temp_heatcold (.s "ON")).2 = true ∧
    (ac_queue_command ⟨"m", acDefault, [], 0, fun _ => "id", 0⟩
      .t_temp_heatcold (.s "ON")).1.queue =
      [⟨10, 0, ⟨"boolean", "t_temp_heatcold", .vInt 1, "id"⟩,
        some (.t_temp_heatcold, .vEnum .fastColdHeat 1)⟩,
       ⟨10, 1, ⟨"integer", "t_fan_speed", .vInt 0, "id"⟩,
        some (.t_fan_speed, .vEnum .fanSpeed 0)⟩,
       ⟨10, 2, ⟨"boolean", "t_fan_mute", .vInt 0, "id"⟩,
        some (.t_fan_mute, .vEnum .quiet 0)⟩,
       ⟨10, 3, ⟨"integer", "t_sleep", .vInt 0, "id"⟩,
        some (.t_sleep, .vEnum .sleepMode 0)⟩,
       ⟨10, 4, ⟨"boolean", "t_temp_eight", .vInt 0, "id"⟩,
        some (.t_temp_eight, .vEnum .eightHeat 0)⟩] := by
  simpa using C7_fast_heat_cascade ⟨"m", acDefault, [], 0, fun _ => "id", 0⟩ rfl

/-! ### C10 — listener fan-out on property updates -/

/-- A sub-property update never changes the device's mac address. -/
theorem ac_update_sub_mac (st : DevState) (n : PropName) (v : PropValue) :
    (ac_update_sub st n v).1.mac = st.mac := by
  unfold ac_update_sub base_update_no_ctl
  dsimp only
  split_ifs <;> simp [DevState.setProp]

/-- A sub-property update leaves every other mirror entry alone. -/
theorem ac_update_sub_props_other (st : DevState) (n : PropName) (v : PropValue)
    (p : PropName) (hp : p ≠ n) :
    (ac_update_sub st n v).1.props p = st.props p := by
  unfold ac_update_sub base_update_no_ctl
  dsimp only
  split_ifs <;> simp [DevState.setProp, hp]

/-- The recursive control-value decode keeps the mac address. -/
theorem ac_update_controlled_mac (st : DevState) (c : Nat) :
    (ac_update_controlled st c).1.mac = st.mac := by
  unfold ac_update_controlled
  simp only [List.foldl]
  repeat rw [ac_update_sub_mac]

/-- The recursive control-value decode never rewrites `t_control_value`
itself: every sub-write targets one of the ten decoded properties. -/
theorem ac_update_controlled_props_ctl (st : DevState) (c : Nat) :
    (ac_update_controlled st c).1.props .t_control_value =
      st.props .t_control_value := by
  unfold ac_update_controlled
  simp only [List.foldl]
  repeat rw [ac_update_sub_props_other _ _ _ _ (by decide)]

/-- The base update always emits the event for the written property, with
the device's mac address. -/
theorem ac_base_update_event (st : DevState) (name : PropName) (value : PropValue)
    (nv : Option NotifyVal) :
    (st.mac, acName name, nv.getD (.pv value)) ∈
      (ac_base_update st name value nv).2 := by
  unfold ac_base_update
  dsimp only
  by_cases hc : pyEq value (st.props name) = true
  · simp [hc]
  · simp only [hc, Bool.false_eq_true, if_false]
    split_ifs with hctl
    · have hmac : (ac_update_controlled (st.setProp name value)
          (regOf value)).1.mac = st.mac := by
        rw [ac_update_controlled_mac]
        rfl
      rw [hmac]
      exact List.mem_append_right _ (List.mem_singleton.mpr rfl)
    · exact List.mem_append_right _ (List.mem_singleton.mpr rfl)

/-- The base update rewrites the named mirror entry exactly when the value
differs (and the `t_control_value` recursion never touches the register
entry itself). -/
theorem ac_base_update_props (st : DevState) (name : PropName) (value : PropValue)
    (nv : Option NotifyVal) :
    (ac_base_update st name value nv).1.props name =
      (if pyEq value (st.props name) = true then st.props name else value) := by
  unfold ac_base_update
  dsimp only
  by_cases hc : pyEq value (st.props name) = true
  · simp [hc]
  · simp only [hc, Bool.false_eq_true, if_false]
    split_ifs with hctl
    · subst hctl
      rw [ac_update_controlled_props_ctl]
      simp [DevState.setProp]
    · simp [DevState.setProp]

/-- C10: every call to `update_property` on an AC device invokes the change
listeners with `(mac_address, name, notify_value)` — where the notify value
is the written value except for the off-state `t_work_mode` override — even
when the new value equals the stored one, while the mirror entry for `name`
is rewritten only when the value differs.  (The register hypothesis scopes
the statement to the int-valued `t_control_value` writes that actually
occur; Python raises inside the decode hook otherwise.) -/
theorem C10_update_property_notify (st : DevState) (name : PropName)
    (value : PropValue)
    (hreg : name = .t_control_value → ∃ i, value = .vInt i) :
    ((st.mac, acName name,
      if name = .t_work_mode ∧ pyEq (ac_get_power st) (.vEnum .power 0) = true
      then NotifyVal.str "off" else NotifyVal.pv value)
      ∈ (ac_update_property st name value).2) ∧
    (ac_update_property st name value).1.props name =
      (if pyEq value (st.props name) = true then st.props name else value) := by
  constructor
  · unfold ac_update_property
    dsimp only
    have hbase := ac_base_update_event st name value
      (if name = .t_work_mode ∧ pyEq (ac_get_power st) (.vEnum .power 0) = true
       then some (.str "off") else none)
    have hval : (if name = .t_work_mode ∧
          pyEq (ac_get_power st) (.vEnum .power 0) = true
        then some (NotifyVal.str "off") else none).getD (.pv value) =
        (if name = .t_work_mode ∧ pyEq (ac_get_power st) (.vEnum .power 0) = true
         then NotifyVal.str "off" else NotifyVal.pv value) := by
      split_ifs <;> rfl
    rw [hval] at hbase
    by_cases hp : name = .t_power
    · rw [if_pos hp]
      exact List.mem_append_left _ hbase
    · rw [if_neg hp]
      exact hbase
  · unfold ac_update_property
    dsimp only
    have hbase := ac_base_update_props st name value
      (if name = .t_work_mode ∧ pyEq (ac_get_power st) (.vEnum .power 0) = true
       then some (.str "off") else none)
    by_cases hp : name = .t_power
    · rw [if_pos hp]
      exact hbase
    · rw [if_neg hp]
      exact hbase

/-- C10 witness: an update of `t_temp` to a fresh value on a default-state
device. -/
theorem C10_update_property_notify_witness :
    ((("m" : String), acName .t_temp,
      if PropName.t_temp = .t_work_mode ∧
        pyEq (ac_get_power ⟨"m", acDefault, [], 0, fun _ => "id", 0⟩)
          (.vEnum .power 0) = true
      then NotifyVal.str "off" else NotifyVal.pv (.vInt 75))
      ∈ (ac_update_property ⟨"m", acDefault, [], 0, fun _ => "id", 0⟩
          .t_temp (.vInt 75)).2) ∧
    (ac_update_property ⟨"m", acDefault, [], 0, fun _ => "id", 0⟩
      .t_temp (.vInt 75)).1.props .t_temp =
      (if pyEq (.vInt 75) (acDefault .t_temp) = true
       then acDefault .t_temp else .vInt 75) :=
  C10_update_property_notify ⟨"m", acDefault, [], 0, fun _ => "id", 0⟩
    .t_temp (.vInt 75) (by intro hh; cases hh)

/-! ### C4 — the control-value codec -/

/-- Bits at or above the width bound of a bounded number are clear. -/
theorem testBit_of_lt_of_le {x n i : Nat} (hx : x < 2 ^ n) (h : n ≤ i) :
    x.testBit i = false :=
  Nat.testBit_lt_two_pow (lt_of_lt_of_le hx (Nat.pow_le_pow_right (by norm_num) h))

/-- Bit `j` of the literal 1 (`2 ^ 0`). -/
theorem testBit_one_eq (j : Nat) : Nat.testBit 1 j = decide (j = 0) := by
  have := Nat.testBit_two_pow (n := 0) (m := j)
  simpa [eq_comm] using this

/-- Frame property of the generic encoder: bits outside the field
`[shift, shift + w + 1)` are untouched. -/
theorem encF_testBit_frame (s w r v i : Nat) (h32 : s + w + 1 ≤ 32)
    (hr : r < 2 ^ 32) (hv : v < 2 ^ w) (hi : i < s ∨ s + w + 1 ≤ i) :
    (encF s w r v).testBit i = r.testBit i := by
  unfold encF not32
  simp only [Nat.testBit_lor, Nat.testBit_land, Nat.testBit_xor,
    Nat.testBit_shiftLeft, Nat.testBit_two_pow_sub_one, testBit_one_eq]
  rcases hi with hi | hi
  · have h1 : ¬(s ≤ i) := by omega
    have h2 : i < 32 := by omega
    simp [h1, h2, ge_iff_le]
  · have h3 : ¬(i - s = 0) := by omega
    have h4 : v.testBit (i - s - 1) = false := testBit_of_lt_of_le hv (by omega)
    have h5 : ¬(i - s < w + 1) := by omega
    by_cases hi32 : i < 32
    · simp [h3, h4, h5, hi32, ge_iff_le]
    · have hrf : r.testBit i = false := testBit_of_lt_of_le hr (by omega)
      simp [h3, h4, h5, hi32, hrf, ge_iff_le]

/-- Decoding the freshly encoded field returns the encoded value. -/
theorem encF_decode (s w r v : Nat) (h32 : s + w + 1 ≤ 32) (hv : v < 2 ^ w) :
    decF s w (encF s w r v) = v := by
  apply Nat.eq_of_testBit_eq
  intro i
  unfold decF encF not32
  simp only [Nat.testBit_land, Nat.testBit_shiftRight, Nat.testBit_lor,
    Nat.testBit_xor, Nat.testBit_shiftLeft, Nat.testBit_two_pow_sub_one,
    testBit_one_eq]
  by_cases hw : i < w
  · have h1 : s ≤ s + 1 + i := by omega
    have h2 : s + 1 + i - s < w + 1 := by omega
    have h3 : s + 1 + i < 32 := by omega
    have h4 : ¬(s + 1 + i - s = 0) := by omega
    have h5 : s + 1 + i - s - 1 = i := by omega
    have h6 : 1 ≤ s + 1 + i - s := by omega
    simp [h1, h2, h3, h4, h5, h6, hw, ge_iff_le]
  · have hvf : v.testBit i = false := testBit_of_lt_of_le hv (by omega)
    simp [hw, hvf]

/-- The change-flag bit of the encoded field is set. -/
theorem encF_testBit_flag (s w r v : Nat) :
    (encF s w r v).testBit s = true := by
  unfold encF not32
  simp only [Nat.testBit_lor, Nat.testBit_land, Nat.testBit_xor,
    Nat.testBit_shiftLeft, Nat.testBit_two_pow_sub_one, testBit_one_eq]
  simp

/-- Decoders only look at their own bit range. -/
theorem decF_congr (s' w' a b : Nat)
    (h : ∀ i, s' + 1 ≤ i → i < s' + 1 + w' → a.testBit i = b.testBit i) :
    decF s' w' a = decF s' w' b := by
  apply Nat.eq_of_testBit_eq
  intro i
  unfold decF
  simp only [Nat.testBit_land, Nat.testBit_shiftRight, Nat.testBit_two_pow_sub_one]
  by_cases hw : i < w'
  · rw [h (s' + 1 + i) (by omega) (by omega)]
  · simp [hw]

/-- A disjoint field decodes identically before and after the encode. -/
theorem decF_encF_other (s w s' w' r v : Nat) (h32 : s + w + 1 ≤ 32)
    (hr : r < 2 ^ 32) (hv : v < 2 ^ w)
    (hdisj : s' + 1 + w' ≤ s ∨ s + w + 1 ≤ s' + 1) :
    decF s' w' (encF s w r v) = decF s' w' r :=
  decF_congr s' w' _ _ fun i h1 h2 =>
    encF_testBit_frame s w r v i h32 hr hv (by omega)

/-! Bridging equations: each source setter/decoder is an instance of the
generic `encF`/`decF`. -/

/-- Equation: `set_fan_speed_value` is the generic encoder at shift 0, width 4. -/
theorem set_fan_speed_value_eq (r v : Nat) : set_fan_speed_value r v = encF 0 4 r v := by
  norm_num [set_fan_speed_value, encF, Nat.shiftLeft_zero]

/-- Equation: `get_fan_speed_value` is the generic decoder at shift 0, width 4. -/
theorem get_fan_speed_value_eq (r : Nat) : get_fan_speed_value r = decF 0 4 r := by
  norm_num [get_fan_speed_value, decF, Nat.shiftLeft_zero]

/-- Equation: `set_power_value` is the generic encoder at shift 5, width 1. -/
theorem set_power_value_eq (r v : Nat) : set_power_value r v = encF 5 1 r v := by
  norm_num [set_power_value, encF, Nat.shiftLeft_zero]

/-- Equation: `get_power_value` is the generic decoder at shift 5, width 1. -/
theorem get_power_value_eq (r : Nat) : get_power_value r = decF 5 1 r := by
  norm_num [get_power_value, decF, Nat.shiftLeft_zero]

/-- Equation: `set_work_mode_value` is the generic encoder at shift 8, width 3. -/
theorem set_work_mode_value_eq (r v : Nat) : set_work_mode_value r v = encF 8 3 r v := by
  norm_num [set_work_mode_value, encF, Nat.shiftLeft_zero]

/-- Equation: `get_work_mode_value` is the generic decoder at shift 8, width 3. -/
theorem get_work_mode_value_eq (r : Nat) : get_work_mode_value r = decF 8 3 r := by
  norm_num [get_work_mode_value, decF, Nat.shiftLeft_zero]

/-- Equation: `set_heat_cold_value` is the generic encoder at shift 12, width 1. -/
theorem set_heat_cold_value_eq (r v : Nat) : set_heat_cold_value r v = encF 12 1 r v := by
  norm_num [set_heat_cold_value, encF, Nat.shiftLeft_zero]

/-- Equation: `get_heat_cold_value` is the generic decoder at shift 12, width 1. -/
theorem get_heat_cold_value_eq (r : Nat) : get_heat_cold_value r = decF 12 1 r := by
  norm_num [get_heat_cold_value, decF, Nat.shiftLeft_zero]

/-- Equation: `set_eco_value` is the generic encoder at shift 14, width 1. -/
theorem set_eco_value_eq (r v : Nat) : set_eco_value r v = encF 14 1 r v := by
  norm_num [set_eco_value, encF, Nat.shiftLeft_zero]

/-- Equation: `get_eco_value` is the generic decoder at shift 14, width 1. -/
theorem get_eco_value_eq (r : Nat) : get_eco_value r = decF 14 1 r := by
  norm_num [get_eco_value, decF, Nat.shiftLeft_zero]

/-- Equation: `set_temp_value` is the generic encoder at shift 16, width 6. -/
theorem set_temp_value_eq (r v : Nat) : set_temp_value r v = encF 16 6 r v := by
  norm_num [set_temp_value, encF, Nat.shiftLeft_zero]

/-- Equation: `get_temp_value` is the generic decoder at shift 16, width 6. -/
theorem get_temp_value_eq (r : Nat) : get_temp_value r = decF 16 6 r := by
  norm_num [get_temp_value, decF, Nat.shiftLeft_zero]

/-- Equation: `set_fan_power_value` is the generic encoder at shift 24, width 1. -/
theorem set_fan_power_value_eq (r v : Nat) : set_fan_power_value r v = encF 24 1 r v := by
  norm_num [set_fan_power_value, encF, Nat.shiftLeft_zero]

/-- Equation: `get_fan_power_value` is the generic decoder at shift 24, width 1. -/
theorem get_fan_power_value_eq (r : Nat) : get_fan_power_value r = decF 24 1 r := by
  norm_num [get_fan_power_value, decF, Nat.shiftLeft_zero]

/-- Equation: `set_fan_lr_value` is the generic encoder at shift 26, width 1. -/
theorem set_fan_lr_value_eq (r v : Nat) : set_fan_lr_value r v = encF 26 1 r v := by
  norm_num [set_fan_lr_value, encF, Nat.shiftLeft_zero]

/-- Equation: `get_fan_lr_value` is the generic decoder at shift 26, width 1. -/
theorem get_fan_lr_value_eq (r : Nat) : get_fan_lr_value r = decF 26 1 r := by
  norm_num [get_fan_lr_value, decF, Nat.shiftLeft_zero]

/-- Equation: `set_fan_mute_value` is the generic encoder at shift 28, width 1. -/
theorem set_fan_mute_value_eq (r v : Nat) : set_fan_mute_value r v = encF 28 1 r v := by
  norm_num [set_fan_mute_value, encF, Nat.shiftLeft_zero]

/-- Equation: `get_fan_mute_value` is the generic decoder at shift 28, width 1. -/
theorem get_fan_mute_value_eq (r : Nat) : get_fan_mute_value r = decF 28 1 r := by
  norm_num [get_fan_mute_value, decF, Nat.shiftLeft_zero]

/-- Equation: `set_temptype_value` is the generic encoder at shift 30, width 1. -/
theorem set_temptype_value_eq (r v : Nat) : set_temptype_value r v = encF 30 1 r v := by
  norm_num [set_temptype_value, encF, Nat.shiftLeft_zero]

/-- Equation: `get_temptype_value` is the generic decoder at shift 30, width 1. -/
theorem get_temptype_value_eq (r : Nat) : get_temptype_value r = decF 30 1 r := by
  norm_num [get_temptype_value, decF, Nat.shiftLeft_zero]

/-- C4: for every 32-bit control register, every sub-field of the
control-value codec, and every value in that sub-field's range, encoding via
`(reg & ~field_mask) | ((value << 1 | 1) << field_shift)` makes the field
decode back to the value, leaves every other sub-field's decoding unchanged,
and sets the field's change-flag bit. -/
theorem C4_control_value_codec (r v : Nat) (hr : r < 2 ^ 32) :
    ∀ f ∈ codecFields, v < f.bound →
      f.get (f.set r v) = v ∧
      (f.set r v).testBit f.flag_bit = true ∧
      ∀ g ∈ codecFields, g ≠ f → g.get (f.set r v) = g.get r := by
  intro f hf hv
  simp only [codecFields, List.mem_cons, List.not_mem_nil, or_false] at hf
  rcases hf with rfl | rfl | rfl | rfl | rfl | rfl | rfl | rfl | rfl | rfl
  · dsimp only at hv ⊢
    refine ⟨?_, ?_, ?_⟩
    · rw [get_fan_speed_value_eq, set_fan_speed_value_eq]
      exact encF_decode 0 4 r v (by norm_num) (by simpa using hv)
    · rw [set_fan_speed_value_eq]
      exact encF_testBit_flag 0 4 r v
    · intro g hg hne
      simp only [codecFields, List.mem_cons, List.not_mem_nil, or_false] at hg
      rcases hg with rfl | rfl | rfl | rfl | rfl | rfl | rfl | rfl | rfl | rfl
      · exact absurd rfl hne
      · dsimp only
        rw [get_power_value_eq, set_fan_speed_value_eq]
        exact decF_encF_other 0 4 5 1 r v (by norm_num) hr
          (by simpa using hv) (by norm_num)
      · dsimp only
        rw [get_work_mode_value_eq, set_fan_speed_value_eq]
        exact decF_encF_other 0 4 8 3 r v (by norm_num) hr
          (by simpa using hv) (by norm_num)
      · dsimp only
        rw [get_heat_cold_value_eq, set_fan_speed_value_eq]
        exact decF_encF_other 0 4 12 1 r v (by norm_num) hr
          (by simpa using hv) (by norm_num)
      · dsimp only
        rw [get_eco_value_eq, set_fan_speed_value_eq]
        exact decF_encF_other 0 4 14 1 r v (by norm_num) hr
          (by simpa using hv) (by norm_num)
      · dsimp only
        rw [get_temp_value_eq, set_fan_speed_value_eq]
        exact decF_encF_other 0 4 16 6 r v (by norm_num) hr
          (by simpa using hv) (by norm_num)
      · dsimp only
        rw [get_fan_power_value_eq, set_fan_speed_value_eq]
        exact decF_encF_other 0 4 24 1 r v (by norm_num) hr
          (by simpa using hv) (by norm_num)
      · dsimp only
        rw [get_fan_lr_value_eq, set_fan_speed_value_eq]
        exact decF_encF_other 0 4 26 1 r v (by norm_num) hr
          (by simpa using hv) (by norm_num)
      · dsimp only
        rw [get_fan_mute_value_eq, set_fan_speed_value_eq]
        exact decF_encF_other 0 4 28 1 r v (by norm_num) hr
          (by simpa using hv) (by norm_num)
      · dsimp only
        rw [get_temptype_value_eq, set_fan_speed_value_eq]
        exact decF_encF_other 0 4 30 1 r v (by norm_num) hr
          (by simpa using hv) (by norm_num)
  · dsimp only at hv ⊢
    refine ⟨?_, ?_, ?_⟩
    · rw [get_power_value_eq, set_power_value_eq]
      exact encF_decode 5 1 r v (by norm_num) (by simpa using hv)
    · rw [set_power_value_eq]
      exact encF_testBit_flag 5 1 r v
    · intro g hg hne
      simp only [codecFields, List.mem_cons, List.not_mem_nil, or_false] at hg
      rcases hg with rfl | rfl | rfl | rfl | rfl | rfl | rfl | rfl | rfl | rfl
      · dsimp only
        rw [get_fan_speed_value_eq, set_power_value_eq]
        exact decF_encF_other 5 1 0 4 r v (by norm_num) hr
          (by simpa using hv) (by norm_num)
      · exact absurd rfl hne
      · dsimp only
        rw [get_work_mode_value_eq, set_power_value_eq]
        exact decF_encF_other 5 1 8 3 r v (by norm_num) hr
          (by simpa using hv) (by norm_num)
      · dsimp only
        rw [get_heat_cold_value_eq, set_power_value_eq]
        exact decF_encF_other 5 1 12 1 r v (by norm_num) hr
          (by simpa using hv) (by norm_num)
      · dsimp only
        rw [get_eco_value_eq, set_power_value_eq]
        exact decF_encF_other 5 1 14 1 r v (by norm_num) hr
          (by simpa using hv) (by norm_num)
      · dsimp only
        rw [get_temp_value_eq, set_power_value_eq]
        exact decF_encF_other 5 1 16 6 r v (by norm_num) hr
          (by simpa using hv) (by norm_num)
      · dsimp only
        rw [get_fan_power_value_eq, set_power_value_eq]
        exact decF_encF_other 5 1 24 1 r v (by norm_num) hr
          (by simpa using hv) (by norm_num)
      · dsimp only
        rw [get_fan_lr_value_eq, set_power_value_eq]
        exact decF_encF_other 5 1 26 1 r v (by norm_num) hr
          (by simpa using hv) (by norm_num)
      · dsimp only
        rw [get_fan_mute_value_eq, set_power_value_eq]
        exact decF_encF_other 5 1 28 1 r v (by norm_num) hr
          (by simpa using hv) (by norm_num)
      · dsimp only
        rw [get_temptype_value_eq, set_power_value_eq]
        exact decF_encF_other 5 1 30 1 r v (by norm_num) hr
          (by simpa using hv) (by norm_num)
  · dsimp only at hv ⊢
    refine ⟨?_, ?_, ?_⟩
    · rw [get_work_mode_value_eq, set_work_mode_value_eq]
      exact encF_decode 8 3 r v (by norm_num) (by simpa using hv)
    · rw [set_work_mode_value_eq]
      exact encF_testBit_flag 8 3 r v
    · intro g hg hne
      simp only [codecFields, List.mem_cons, List.not_mem_nil, or_false] at hg
      rcases hg with rfl | rfl | rfl | rfl | rfl | rfl | rfl | rfl | rfl | rfl
      · dsimp only
        rw [get_fan_speed_value_eq, set_work_mode_value_eq]
        exact decF_encF_other 8 3 0 4 r v (by norm_num) hr
          (by simpa using hv) (by norm_num)
      · dsimp only
        rw [get_power_value_eq, set_work_mode_value_eq]
        exact decF_encF_other 8 3 5 1 r v (by norm_num) hr
          (by simpa using hv) (by norm_num)
      · exact absurd rfl hne
      · dsimp only
        rw [get_heat_cold_value_eq, set_work_mode_value_eq]
        exact decF_encF_other 8 3 12 1 r v (by norm_num) hr
          (by simpa using hv) (by norm_num)
      · dsimp only
        rw [get_eco_value_eq, set_work_mode_value_eq]
        exact decF_encF_other 8 3 14 1 r v (by norm_num) hr
          (by simpa using hv) (by norm_num)
      · dsimp only
        rw [get_temp_value_eq, set_work_mode_value_eq]
        exact decF_encF_other 8 3 16 6 r v (by norm_num) hr
          (by simpa using hv) (by norm_num)
      · dsimp only
        rw [get_fan_power_value_eq, set_work_mode_value_eq]
        exact decF_encF_other 8 3 24 1 r v (by norm_num) hr
          (by simpa using hv) (by norm_num)
      · dsimp only
        rw [get_fan_lr_value_eq, set_work_mode_value_eq]
        exact decF_encF_other 8 3 26 1 r v (by norm_num) hr
          (by simpa using hv) (by norm_num)
      · dsimp only
        rw [get_fan_mute_value_eq, set_work_mode_value_eq]
        exact decF_encF_other 8 3 28 1 r v (by norm_num) hr
          (by simpa using hv) (by norm_num)
      · dsimp only
        rw [get_temptype_value_eq, set_work_mode_value_eq]
        exact decF_encF_other 8 3 30 1 r v (by norm_num) hr
          (by simpa using hv) (by norm_num)
  · dsimp only at hv ⊢
    refine ⟨?_, ?_, ?_⟩
    · rw [get_heat_cold_value_eq, set_heat_cold_value_eq]
      exact encF_decode 12 1 r v (by norm_num) (by simpa using hv)
    · rw [set_heat_cold_value_eq]
      exact encF_testBit_flag 12 1 r v
    · intro g hg hne
      simp only [codecFields, List.mem_cons, List.not_mem_nil, or_false] at hg
      rcases hg with rfl | rfl | rfl | rfl | rfl | rfl | rfl | rfl | rfl | rfl
      · dsimp only
        rw [get_fan_speed_value_eq, set_heat_cold_value_eq]
        exact decF_encF_other 12 1 0 4 r v (by norm_num) hr
          (by simpa using hv) (by norm_num)
      · dsimp only
        rw [get_power_value_eq, set_heat_cold_value_eq]
        exact decF_encF_other 12 1 5 1 r v (by norm_num) hr
          (by simpa using hv) (by norm_num)
      · dsimp only
        rw [get_work_mode_value_eq, set_heat_cold_value_eq]
        exact decF_encF_other 12 1 8 3 r v (by norm_num) hr
          (by simpa using hv) (by norm_num)
      · exact absurd rfl hne
      · dsimp only
        rw [get_eco_value_eq, set_heat_cold_value_eq]
        exact decF_encF_other 12 1 14 1 r v (by norm_num) hr
          (by simpa using hv) (by norm_num)
      · dsimp only
        rw [get_temp_value_eq, set_heat_cold_value_eq]
        exact decF_encF_other 12 1 16 6 r v (by norm_num) hr
          (by simpa using hv) (by norm_num)
      · dsimp only
        rw [get_fan_power_value_eq, set_heat_cold_value_eq]
        exact decF_encF_other 12 1 24 1 r v (by norm_num) hr
          (by simpa using hv) (by norm_num)
      · dsimp only
        rw [get_fan_lr_value_eq, set_heat_cold_value_eq]
        exact decF_encF_other 12 1 26 1 r v (by norm_num) hr
          (by simpa using hv) (by norm_num)
      · dsimp only
        rw [get_fan_mute_value_eq, set_heat_cold_value_eq]
        exact decF_encF_other 12 1 28 1 r v (by norm_num) hr
          (by simpa using hv) (by norm_num)
      · dsimp only
        rw [get_temptype_value_eq, set_heat_cold_value_eq]
        exact decF_encF_other 12 1 30 1 r v (by norm_num) hr
          (by simpa using hv) (by norm_num)
  · dsimp only at hv ⊢
    refine ⟨?_, ?_, ?_⟩
    · rw [get_eco_value_eq, set_eco_value_eq]
      exact encF_decode 14 1 r v (by norm_num) (by simpa using hv)
    · rw [set_eco_value_eq]
      exact encF_testBit_flag 14 1 r v
    · intro g hg hne
      simp only [codecFields, List.mem_cons, List.not_mem_nil, or_false] at hg
      rcases hg with rfl | rfl | rfl | rfl | rfl | rfl | rfl | rfl | rfl | rfl
      · dsimp only
        rw [get_fan_speed_value_eq, set_eco_value_eq]
        exact decF_encF_other 14 1 0 4 r v (by norm_num) hr
          (by simpa using hv) (by norm_num)
      · dsimp only
        rw [get_power_value_eq, set_eco_value_eq]
        exact decF_encF_other 14 1 5 1 r v (by norm_num) hr
          (by simpa using hv) (by norm_num)
      · dsimp only
        rw [get_work_mode_value_eq, set_eco_value_eq]
        exact decF_encF_other 14 1 8 3 r v (by norm_num) hr
          (by simpa using hv) (by norm_num)
      · dsimp only
        rw [get_heat_cold_value_eq, set_eco_value_eq]
        exact decF_encF_other 14 1 12 1 r v (by norm_num) hr
          (by simpa using hv) (by norm_num)
      · exact absurd rfl hne
      · dsimp only
        rw [get_temp_value_eq, set_eco_value_eq]
        exact decF_encF_other 14 1 16 6 r v (by norm_num) hr
          (by simpa using hv) (by norm_num)
      · dsimp only
        rw [get_fan_power_value_eq, set_eco_value_eq]
        exact decF_encF_other 14 1 24 1 r v (by norm_num) hr
          (by simpa using hv) (by norm_num)
      · dsimp only
        rw [get_fan_lr_value_eq, set_eco_value_eq]
        exact decF_encF_other 14 1 26 1 r v (by norm_num) hr
          (by simpa using hv) (by norm_num)
      · dsimp only
        rw [get_fan_mute_value_eq, set_eco_value_eq]
        exact decF_encF_other 14 1 28 1 r v (by norm_num) hr
          (by simpa using hv) (by norm_num)
      · dsimp only
        rw [get_temptype_value_eq, set_eco_value_eq]
        exact decF_encF_other 14 1 30 1 r v (by norm_num) hr
          (by simpa using hv) (by norm_num)
  · dsimp only at hv ⊢
    refine ⟨?_, ?_, ?_⟩
    · rw [get_temp_value_eq, set_temp_value_eq]
      exact encF_decode 16 6 r v (by norm_num) (by simpa using hv)
    · rw [set_temp_value_eq]
      exact encF_testBit_flag 16 6 r v
    · intro g hg hne
      simp only [codecFields, List.mem_cons, List.not_mem_nil, or_false] at hg
      rcases hg with rfl | rfl | rfl | rfl | rfl | rfl | rfl | rfl | rfl | rfl
      · dsimp only
        rw [get_fan_speed_value_eq, set_temp_value_eq]
        exact decF_encF_other 16 6 0 4 r v (by norm_num) hr
          (by simpa using hv) (by norm_num)
      · dsimp only
        rw [get_power_value_eq, set_temp_value_eq]
        exact decF_encF_other 16 6 5 1 r v (by norm_num) hr
          (by simpa using hv) (by norm_num)
      · dsimp only
        rw [get_work_mode_value_eq, set_temp_value_eq]
        exact decF_encF_other 16 6 8 3 r v (by norm_num) hr
          (by simpa using hv) (by norm_num)
      · dsimp only
        rw [get_heat_cold_value_eq, set_temp_value_eq]
        exact decF_encF_other 16 6 12 1 r v (by norm_num) hr
          (by simpa using hv) (by norm_num)
      · dsimp only
        rw [get_eco_value_eq, set_temp_value_eq]
        exact decF_encF_other 16 6 14 1 r v (by norm_num) hr
          (by simpa using hv) (by norm_num)
      · exact absurd rfl hne
      · dsimp only
        rw [get_fan_power_value_eq, set_temp_value_eq]
        exact decF_encF_other 16 6 24 1 r v (by norm_num) hr
          (by simpa using hv) (by norm_num)
      · dsimp only
        rw [get_fan_lr_value_eq, set_temp_value_eq]
        exact decF_encF_other 16 6 26 1 r v (by norm_num) hr
          (by simpa using hv) (by norm_num)
      · dsimp only
        rw [get_fan_mute_value_eq, set_temp_value_eq]
        exact decF_encF_other 16 6 28 1 r v (by norm_num) hr
          (by simpa using hv) (by norm_num)
      · dsimp only
        rw [get_temptype_value_eq, set_temp_value_eq]
        exact decF_encF_other 16 6 30 1 r v (by norm_num) hr
          (by simpa using hv) (by norm_num)
  · dsimp only at hv ⊢
    refine ⟨?_, ?_, ?_⟩
    · rw [get_fan_power_value_eq, set_fan_power_value_eq]
      exact encF_decode 24 1 r v (by norm_num) (by simpa using hv)
    · rw [set_fan_power_value_eq]
      exact encF_testBit_flag 24 1 r v
    · intro g hg hne
      simp only [codecFields, List.mem_cons, List.not_mem_nil, or_false] at hg
      rcases hg with rfl | rfl | rfl | rfl | rfl | rfl | rfl | rfl | rfl | rfl
      · dsimp only
        rw [get_fan_speed_value_eq, set_fan_power_value_eq]
        exact decF_encF_other 24 1 0 4 r v (by norm_num) hr
          (by simpa using hv) (by norm_num)
      · dsimp only
        rw [get_power_value_eq, set_fan_power_value_eq]
        exact decF_encF_other 24 1 5 1 r v (by norm_num) hr
          (by simpa using hv) (by norm_num)
      · dsimp only
        rw [get_work_mode_value_eq, set_fan_power_value_eq]
        exact decF_encF_other 24 1 8 3 r v (by norm_num) hr
          (by simpa using hv) (by norm_num)
      · dsimp only
        rw [get_heat_cold_value_eq, set_fan_power_value_eq]
        exact decF_encF_other 24 1 12 1 r v (by norm_num) hr
          (by simpa using hv) (by norm_num)
      · dsimp only
        rw [get_eco_value_eq, set_fan_power_value_eq]
        exact decF_encF_other 24 1 14 1 r v (by norm_num) hr
          (by simpa using hv) (by norm_num)
      · dsimp only
        rw [get_temp_value_eq, set_fan_power_value_eq]
        exact decF_encF_other 24 1 16 6 r v (by norm_num) hr
          (by simpa using hv) (by norm_num)
      · exact absurd rfl hne
      · dsimp only
        rw [get_fan_lr_value_eq, set_fan_power_value_eq]
        exact decF_encF_other 24 1 26 1 r v (by norm_num) hr
          (by simpa using hv) (by norm_num)
      · dsimp only
        rw [get_fan_mute_value_eq, set_fan_power_value_eq]
        exact decF_encF_other 24 1 28 1 r v (by norm_num) hr
          (by simpa using hv) (by norm_num)
      · dsimp only
        rw [get_temptype_value_eq, set_fan_power_value_eq]
        exact decF_encF_other 24 1 30 1 r v (by norm_num) hr
          (by simpa using hv) (by norm_num)
  · dsimp only at hv ⊢
    refine ⟨?_, ?_, ?_⟩
    · rw [get_fan_lr_value_eq, set_fan_lr_value_eq]
      exact encF_decode 26 1 r v (by norm_num) (by simpa using hv)
    · rw [set_fan_lr_value_eq]
      exact encF_testBit_flag 26 1 r v
    · intro g hg hne
      simp only [codecFields, List.mem_cons, List.not_mem_nil, or_false] at hg
      rcases hg with rfl | rfl | rfl | rfl | rfl | rfl | rfl | rfl | rfl | rfl
      · dsimp only
        rw [get_fan_speed_value_eq, set_fan_lr_value_eq]
        exact decF_encF_other 26 1 0 4 r v (by norm_num) hr
          (by simpa using hv) (by norm_num)
      · dsimp only
        rw [get_power_value_eq, set_fan_lr_value_eq]
        exact decF_encF_other 26 1 5 1 r v (by norm_num) hr
          (by simpa using hv) (by norm_num)
      · dsimp only
        rw [get_work_mode_value_eq, set_fan_lr_value_eq]
        exact decF_encF_other 26 1 8 3 r v (by norm_num) hr
          (by simpa using hv) (by norm_num)
      · dsimp only
        rw [get_heat_cold_value_eq, set_fan_lr_value_eq]
        exact decF_encF_other 26 1 12 1 r v (by norm_num) hr
          (by simpa using hv) (by norm_num)
      · dsimp only
        rw [get_eco_value_eq, set_fan_lr_value_eq]
        exact decF_encF_other 26 1 14 1 r v (by norm_num) hr
          (by simpa using hv) (by norm_num)
      · dsimp only
        rw [get_temp_value_eq, set_fan_lr_value_eq]
        exact decF_encF_other 26 1 16 6 r v (by norm_num) hr
          (by simpa using hv) (by norm_num)
      · dsimp only
        rw [get_fan_power_value_eq, set_fan_lr_value_eq]
        exact decF_encF_other 26 1 24 1 r v (by norm_num) hr
          (by simpa using hv) (by norm_num)
      · exact absurd rfl hne
      · dsimp only
        rw [get_fan_mute_value_eq, set_fan_lr_value_eq]
        exact decF_encF_other 26 1 28 1 r v (by norm_num) hr
          (by simpa using hv) (by norm_num)
      · dsimp only
        rw [get_temptype_value_eq, set_fan_lr_value_eq]
        exact decF_encF_other 26 1 30 1 r v (by norm_num) hr
          (by simpa using hv) (by norm_num)
  · dsimp only at hv ⊢
    refine ⟨?_, ?_, ?_⟩
    · rw [get_fan_mute_value_eq, set_fan_mute_value_eq]
      exact encF_decode 28 1 r v (by norm_num) (by simpa using hv)
    · rw [set_fan_mute_value_eq]
      exact encF_testBit_flag 28 1 r v
    · intro g hg hne
      simp only [codecFields, List.mem_cons, List.not_mem_nil, or_false] at hg
      rcases hg with rfl | rfl | rfl | rfl | rfl | rfl | rfl | rfl | rfl | rfl
      · dsimp only
        rw [get_fan_speed_value_eq, set_fan_mute_value_eq]
        exact decF_encF_other 28 1 0 4 r v (by norm_num) hr
          (by simpa using hv) (by norm_num)
      · dsimp only
        rw [get_power_value_eq, set_fan_mute_value_eq]
        exact decF_encF_other 28 1 5 1 r v (by norm_num) hr
          (by simpa using hv) (by norm_num)
      · dsimp only
        rw [get_work_mode_value_eq, set_fan_mute_value_eq]
        exact decF_encF_other 28 1 8 3 r v (by norm_num) hr
          (by simpa using hv) (by norm_num)
      · dsimp only
        rw [get_heat_cold_value_eq, set_fan_mute_value_eq]
        exact decF_encF_other 28 1 12 1 r v (by norm_num) hr
          (by simpa using hv) (by norm_num)
      · dsimp only
        rw [get_eco_value_eq, set_fan_mute_value_eq]
        exact decF_encF_other 28 1 14 1 r v (by norm_num) hr
          (by simpa using hv) (by norm_num)
      · dsimp only
        rw [get_temp_value_eq, set_fan_mute_value_eq]
        exact decF_encF_other 28 1 16 6 r v (by norm_num) hr
          (by simpa using hv) (by norm_num)
      · dsimp only
        rw [get_fan_power_value_eq, set_fan_mute_value_eq]
        exact decF_encF_other 28 1 24 1 r v (by norm_num) hr
          (by simpa using hv) (by norm_num)
      · dsimp only
        rw [get_fan_lr_value_eq, set_fan_mute_value_eq]
        exact decF_encF_other 28 1 26 1 r v (by norm_num) hr
          (by simpa using hv) (by norm_num)
      · exact absurd rfl hne
      · dsimp only
        rw [get_temptype_value_eq, set_fan_mute_value_eq]
        exact decF_encF_other 28 1 30 1 r v (by norm_num) hr
          (by simpa using hv) (by norm_num)
  · dsimp only at hv ⊢
    refine ⟨?_, ?_, ?_⟩
    · rw [get_temptype_value_eq, set_temptype_value_eq]
      exact encF_decode 30 1 r v (by norm_num) (by simpa using hv)
    · rw [set_temptype_value_eq]
      exact encF_testBit_flag 30 1 r v
    · intro g hg hne
      simp only [codecFields, List.mem_cons, List.not_mem_nil, or_false] at hg
      rcases hg with rfl | rfl | rfl | rfl | rfl | rfl | rfl | rfl | rfl | rfl
      · dsimp only
        rw [get_fan_speed_value_eq, set_temptype_value_eq]
        exact decF_encF_other 30 1 0 4 r v (by norm_num) hr
          (by simpa using hv) (by norm_num)
      · dsimp only
        rw [get_power_value_eq, set_temptype_value_eq]
        exact decF_encF_other 30 1 5 1 r v (by norm_num) hr
          (by simpa using hv) (by norm_num)
      · dsimp only
        rw [get_work_mode_value_eq, set_temptype_value_eq]
        exact decF_encF_other 30 1 8 3 r v (by norm_num) hr
          (by simpa using hv) (by norm_num)
      · dsimp only
        rw [get_heat_cold_value_eq, set_temptype_value_eq]
        exact decF_encF_other 30 1 12 1 r v (by norm_num) hr
          (by simpa using hv) (by norm_num)
      · dsimp only
        rw [get_eco_value_eq, set_temptype_value_eq]
        exact decF_encF_other 30 1 14 1 r v (by norm_num) hr
          (by simpa using hv) (by norm_num)
      · dsimp only
        rw [get_temp_value_eq, set_temptype_value_eq]
        exact decF_encF_other 30 1 16 6 r v (by norm_num) hr
          (by simpa using hv) (by norm_num)
      · dsimp only
        rw [get_fan_power_value_eq, set_temptype_value_eq]
        exact decF_encF_other 30 1 24 1 r v (by norm_num) hr
          (by simpa using hv) (by norm_num)
      · dsimp only
        rw [get_fan_lr_value_eq, set_temptype_value_eq]
        exact decF_encF_other 30 1 26 1 r v (by norm_num) hr
          (by simpa using hv) (by norm_num)
      · dsimp only
        rw [get_fan_mute_value_eq, set_temptype_value_eq]
        exact decF_encF_other 30 1 28 1 r v (by norm_num) hr
          (by simpa using hv) (by norm_num)
      · exact absurd rfl hne

/-- C4 witness: the codec facts at the concrete register 1000 and value 1,
instantiated at the `power` sub-field. -/
theorem C4_control_value_codec_witness :
    get_power_value (set_power_value 1000 1) = 1 ∧
    (set_power_value 1000 1).testBit 5 = true ∧
    (∀ g ∈ codecFields, g ≠ (⟨set_power_value, get_power_value, 5, 2⟩ : CodecField) →
      g.get (set_power_value 1000 1) = g.get 1000) :=
  C4_control_value_codec 1000 1 (by norm_num)
    ⟨set_power_value, get_power_value, 5, 2⟩
    (by simp [codecFields]) (by norm_num)

end AirCon
